import Mathlib

/-!
Shallow embedding of the gitlab-ops-mcp server's request-mapping and
validation layer.

Source files embedded:
* `src/errors.ts` — the three error classes.
* `src/gitlab-client.ts` — `createGitLabClient`'s `request` function and the
  four method wrappers.
* `src/validation.ts` — the `requireParam` / `requireString` / … validators.
* `src/tools/*.ts` — the per-tool handlers (`create_webhook`, …), the shared
  `errorResponse` / `jsonResponse` / `handleError` helpers, and the zod field
  schemas declared on each `server.tool` registration.

JavaScript values flowing through the layer are modelled by an inductive
`Json` type (numbers are modelled as integers: no operation in this layer
does float arithmetic, and every numeric input the claims exercise is an
integer).  JS `undefined` (an absent key) is modelled by `Option`.
-/

namespace GitLabOps

/-- JSON/JS values.  `num` carries an `Int`: the layer never computes with
numbers, it only passes them through and prints them in decimal. -/
inductive Json : Type where
  | null : Json
  | bool : Bool → Json
  | num : Int → Json
  | str : String → Json
  | arr : List Json → Json
  | obj : List (String × Json) → Json

/-- Property read `o[k]` on a JS value: only objects have own properties;
a missing key is `none` (JS `undefined`).  The first binding wins, matching
JS objects where keys are unique. -/
def jsGet (o : Json) (k : String) : Option Json :=
  match o with
  | .obj fields => fields.lookup k
  | _ => none

/-- `o[k] ?? …`-style read: a key that is present but bound to `null` is
skipped by JS nullish coalescing, so it is reported as absent. -/
def nullishGet (o : Json) (k : String) : Option Json :=
  match jsGet o k with
  | some .null => none
  | r => r

/-- Decimal rendering of a JS number (integral model): matches
`String(n)` / `JSON.stringify(n)` for integers. -/
def numToString (n : Int) : String := toString n

mutual

/-- JS `String(v)` coercion (ToString): used where the TS source
interpolates a value of type `unknown` into a template literal. -/
def jsToString : Json → String
  | .null => "null"
  | .bool true => "true"
  | .bool false => "false"
  | .num n => numToString n
  | .str s => s
  | .arr xs => jsToStringList xs
  | .obj _ => "[object Object]"

/-- `Array.prototype.toString`: elements joined with commas. -/
def jsToStringList : List Json → String
  | [] => ""
  | [x] => jsToString x
  | x :: xs => jsToString x ++ "," ++ jsToStringList xs

end

/-- JSON string escaping as performed by `JSON.stringify`. -/
def escapeJsonChar (c : Char) : String :=
  if c = '"' then "\\\""
  else if c = '\\' then "\\\\"
  else if c = '\n' then "\\n"
  else if c = '\r' then "\\r"
  else if c = '\t' then "\\t"
  else if c.toNat = 8 then "\\b"
  else if c.toNat = 12 then "\\f"
  else if c.toNat < 32 then
    "\\u00" ++ String.singleton (if c.toNat / 16 = 0 then '0' else '1')
      ++ String.singleton (Char.ofNat (if c.toNat % 16 < 10 then 48 + c.toNat % 16 else 87 + c.toNat % 16))
  else String.singleton c

def escapeJsonString (s : String) : String :=
  "\"" ++ String.join (s.data.map escapeJsonChar) ++ "\""

mutual

/-- Compact `JSON.stringify(v)`. -/
def Json.stringify : Json → String
  | .null => "null"
  | .bool true => "true"
  | .bool false => "false"
  | .num n => numToString n
  | .str s => escapeJsonString s
  | .arr xs => "[" ++ Json.stringifyElems xs ++ "]"
  | .obj fs => "\x7b" ++ Json.stringifyFields fs ++ "\x7d"

def Json.stringifyElems : List Json → String
  | [] => ""
  | [x] => Json.stringify x
  | x :: xs => Json.stringify x ++ "," ++ Json.stringifyElems xs

def Json.stringifyFields : List (String × Json) → String
  | [] => ""
  | [(k, v)] => escapeJsonString k ++ ":" ++ Json.stringify v
  | (k, v) :: fs => escapeJsonString k ++ ":" ++ Json.stringify v ++ "," ++ Json.stringifyFields fs

end

def indentOf (depth : Nat) : String := String.join (List.replicate depth "  ")

mutual

/-- Pretty `JSON.stringify(v, null, 2)` at nesting depth `depth`. -/
def Json.stringifyPretty (depth : Nat) : Json → String
  | .null => "null"
  | .bool true => "true"
  | .bool false => "false"
  | .num n => numToString n
  | .str s => escapeJsonString s
  | .arr [] => "[]"
  | .arr (x :: xs) =>
      "[\n" ++ Json.stringifyPrettyElems (depth + 1) (x :: xs) ++ "\n" ++ indentOf depth ++ "]"
  | .obj [] => "\x7b\x7d"
  | .obj (f :: fs) =>
      "\x7b\n" ++ Json.stringifyPrettyFields (depth + 1) (f :: fs) ++ "\n" ++ indentOf depth ++ "\x7d"

def Json.stringifyPrettyElems (depth : Nat) : List Json → String
  | [] => ""
  | [x] => indentOf depth ++ Json.stringifyPretty depth x
  | x :: xs =>
      indentOf depth ++ Json.stringifyPretty depth x ++ ",\n" ++ Json.stringifyPrettyElems depth xs

def Json.stringifyPrettyFields (depth : Nat) : List (String × Json) → String
  | [] => ""
  | [(k, v)] => indentOf depth ++ escapeJsonString k ++ ": " ++ Json.stringifyPretty depth v
  | (k, v) :: fs =>
      indentOf depth ++ escapeJsonString k ++ ": " ++ Json.stringifyPretty depth v ++ ",\n"
        ++ Json.stringifyPrettyFields depth fs

end

/-- Characters left unescaped by JS `encodeURIComponent`:
`A-Z a-z 0-9 - _ . ! ~ * ' ( )`.  (39 is the apostrophe.) -/
def uriUnreserved (c : Char) : Bool :=
  (65 ≤ c.toNat && c.toNat ≤ 90) || (97 ≤ c.toNat && c.toNat ≤ 122) ||
  (48 ≤ c.toNat && c.toNat ≤ 57) ||
  c = '-' || c = '_' || c = '.' || c = '!' || c = '~' || c = '*' ||
  c.toNat = 39 || c = '(' || c = ')'

def hexDigitChar (n : Nat) : Char :=
  "0123456789ABCDEF".toList.getD n '0'

/-- `%HH` escape of one byte, uppercase hex. -/
def percentByteChars (b : Nat) : List Char :=
  ['%', hexDigitChar (b / 16), hexDigitChar (b % 16)]

/-- UTF-8 bytes of a code point, as `Nat`s below 256. -/
def utf8Bytes (n : Nat) : List Nat :=
  if n < 128 then [n]
  else if n < 2048 then [192 + n / 64, 128 + n % 64]
  else if n < 65536 then [224 + n / 4096, 128 + (n / 64) % 64, 128 + n % 64]
  else [240 + n / 262144, 128 + (n / 4096) % 64, 128 + (n / 64) % 64, 128 + n % 64]

def encodeURIComponentChar (c : Char) : List Char :=
  if uriUnreserved c then [c]
  else ((utf8Bytes c.toNat).map percentByteChars).flatten

/-- JS `encodeURIComponent`. -/
def encodeURIComponent (s : String) : String :=
  ⟨(s.data.map encodeURIComponentChar).flatten⟩

/-! ## Error taxonomy (`src/errors.ts`) -/

/-- `ValidationError` from `src/errors.ts`: carries the offending parameter
name and the human message (the `Error.message` of the instance). -/
structure ValidationError where
  paramName : String
  message : String
  deriving DecidableEq, Repr

/-- The failures a tool handler can catch.  `api` is `GitLabApiError`
(statusCode + gitlabMessage), `connection` is `GitLabConnectionError`
(carrying the underlying cause's message; a non-`Error` cause is coerced
to its string form before construction, per `gitlab-client.ts`),
`validation` is `ValidationError`, and `other` is any other thrown value
(carrying its message / string form). -/
inductive ToolError : Type where
  | validation : ValidationError → ToolError
  | api : (statusCode : Nat) → (gitlabMessage : String) → ToolError
  | connection : (causeMessage : String) → ToolError
  | other : (message : String) → ToolError
  deriving DecidableEq, Repr

/-- The `Error.message` built by the `GitLabConnectionError` constructor:
`super(‵GitLab connection error: ${cause.message}‵)`. -/
def connectionErrorMessage (causeMessage : String) : String :=
  "GitLab connection error: " ++ causeMessage

/-- The `Error.message` built by the `GitLabApiError` constructor. -/
def apiErrorMessage (statusCode : Nat) (gitlabMessage : String) : String :=
  "GitLab API error " ++ toString statusCode ++ ": " ++ gitlabMessage

/-! ## Tool response shape (`src/tools/*.ts` shared helpers) -/

/-- The MCP call-tool result rendered by a handler: a single text content
item plus the `isError` flag. -/
structure ToolResponse where
  isError : Bool
  text : String
  deriving DecidableEq, Repr

/-- `errorResponse` from `src/tools/*.ts`. -/
def errorResponse (message : String) : ToolResponse :=
  { isError := true, text := message }

/-- `jsonResponse` from `src/tools/*.ts`:
`JSON.stringify(data, null, 2)` as the text of a success result. -/
def jsonResponse (data : Json) : ToolResponse :=
  { isError := false, text := Json.stringifyPretty 0 data }

/-- `handleError` from `src/tools/*.ts` (identical in every tool file).
The `connection` branch renders `error.message`, which the
`GitLabConnectionError` constructor already prefixed. -/
def handleError : ToolError → ToolResponse
  | .validation e => errorResponse ("Validation error: " ++ e.message)
  | .api status msg => errorResponse ("GitLab API error " ++ toString status ++ ": " ++ msg)
  | .connection cause => errorResponse ("GitLab connection error: " ++ connectionErrorMessage cause)
  | .other msg => errorResponse ("Unexpected error: " ++ msg)

/-! ## Remote client (`src/gitlab-client.ts`) -/

inductive Method : Type where
  | GET | POST | PUT | DELETE
  deriving DecidableEq, Repr

/-- A JSON body map as built by the handlers
(`const body: Record<string, unknown> = …`). -/
abbrev Body := List (String × Json)

/-- `application/x-www-form-urlencoded` serialization of one pair, as done
by `URLSearchParams.toString` (space becomes `+`, otherwise
percent-encoding of UTF-8 bytes). -/
def formEncodeChar (c : Char) : List Char :=
  if c = ' ' then ['+']
  else if uriUnreserved c then [c]
  else ((utf8Bytes c.toNat).map percentByteChars).flatten

def formEncode (s : String) : String :=
  ⟨(s.data.map formEncodeChar).flatten⟩

def queryStringOf (params : List (String × String)) : String :=
  String.intercalate "&" (params.map fun p => formEncode p.1 ++ "=" ++ formEncode p.2)

/-- The outbound HTTP request handed to `fetch` by
`createGitLabClient.request` (lines 12–33): URL from base + path
(+ query when a non-empty params map is given), a `PRIVATE-TOKEN` header on
every request, and a JSON content-type header exactly when a body map was
passed.  The body map is serialized with `JSON.stringify` at the `fetch`
call; we keep the map itself. -/
structure OutboundRequest where
  method : Method
  url : String
  headers : List (String × String)
  body : Option Body

def buildRequest (baseUrl token : String) (method : Method) (path : String)
    (body : Option Body) (params : List (String × String)) : OutboundRequest :=
  let url := baseUrl ++ path
  let url := if params.length > 0 then url ++ "?" ++ queryStringOf params else url
  let headers := [("PRIVATE-TOKEN", token)]
  let headers := if body.isSome then headers ++ [("Content-Type", "application/json")] else headers
  { method := method, url := url, headers := headers, body := body }

/-- The four public client methods fix which arguments `request` receives:
`get` passes no body and an optional params map, `post`/`put` pass a body,
`delete` passes neither (lines 56–69 of `gitlab-client.ts`). -/
def clientGetRequest (baseUrl token path : String) (params : List (String × String)) : OutboundRequest :=
  buildRequest baseUrl token .GET path none params

def clientPostRequest (baseUrl token path : String) (body : Body) : OutboundRequest :=
  buildRequest baseUrl token .POST path (some body) []

def clientPutRequest (baseUrl token path : String) (body : Body) : OutboundRequest :=
  buildRequest baseUrl token .PUT path (some body) []

def clientDeleteRequest (baseUrl token path : String) : OutboundRequest :=
  buildRequest baseUrl token .DELETE path none []

/-- What the transport produced for one `fetch` call: either the transport
itself failed before any response (the thrown cause's message, a non-`Error`
cause already coerced to its string form), or a response arrived.
`jsonBody = none` models `response.json()` throwing (unparseable body). -/
structure HttpResponse where
  ok : Bool
  status : Nat
  jsonBody : Option Json
  textBody : String

inductive Transport : Type where
  | fails : (causeMessage : String) → Transport
  | responds : HttpResponse → Transport

/-- Message extraction for a non-ok response (lines 38–47):
`errorBody.message ?? errorBody.error ?? JSON.stringify(errorBody)` when the
body parsed, else the raw response text.  The extracted value is
interpolated into the `GitLabApiError` message, i.e. coerced with
`String(…)`, which we apply here. -/
def extractErrorMessage (jsonBody : Option Json) (textBody : String) : String :=
  match jsonBody with
  | some errorBody =>
      match nullishGet errorBody "message" with
      | some v => jsToString v
      | none =>
          match nullishGet errorBody "error" with
          | some v => jsToString v
          | none => Json.stringify errorBody
  | none => textBody

/-- Outcome of `createGitLabClient.request` after the `fetch`: a thrown
`ToolError` or a value (`none` models the `undefined` returned for DELETE;
GET/POST/PUT return the parsed JSON body).  A transport failure becomes a
`GitLabConnectionError`; a non-2xx response becomes a `GitLabApiError`; on
2xx, DELETE returns `undefined` without touching the body, and other
methods parse it (an unparseable 2xx body makes `response.json()` throw,
which nothing in `request` catches — the raw error reaches the handler's
catch-all). -/
def requestResult (method : Method) (t : Transport) : Except ToolError (Option Json) :=
  match t with
  | .fails cause => .error (.connection cause)
  | .responds r =>
      if r.ok then
        match method with
        | .DELETE => .ok none
        | _ =>
            match r.jsonBody with
            | some j => .ok (some j)
            | none => .error (.other "Unexpected token in JSON")
      else
        .error (.api r.status (extractErrorMessage r.jsonBody r.textBody))

/-! ## Input validators (`src/validation.ts`) -/

/-- The raw argument map of one invocation: parameter name → JSON value.
A parameter the caller did not supply is simply absent from the map
(JS `undefined`). -/
abbrev ArgMap := List (String × Json)

def argGet (m : ArgMap) (k : String) : Option Json := m.lookup k

/-- `requireParam`: absent (`undefined`) and explicit `null` both fail;
any other value — including falsy ones — is returned unchanged. -/
def requireParam (params : ArgMap) (name : String) : Except ValidationError Json :=
  match argGet params name with
  | none => .error ⟨name, "Missing required parameter: " ++ name⟩
  | some .null => .error ⟨name, "Missing required parameter: " ++ name⟩
  | some v => .ok v

def mustBeString (name : String) : ValidationError :=
  ⟨name, "Parameter '" ++ name ++ "' must be a string"⟩

def mustBeNumber (name : String) : ValidationError :=
  ⟨name, "Parameter '" ++ name ++ "' must be a number"⟩

def mustBeBoolean (name : String) : ValidationError :=
  ⟨name, "Parameter '" ++ name ++ "' must be a boolean"⟩

def requireString (params : ArgMap) (name : String) : Except ValidationError String :=
  match requireParam params name with
  | .error e => .error e
  | .ok (.str s) => .ok s
  | .ok _ => .error (mustBeString name)

def requireNumber (params : ArgMap) (name : String) : Except ValidationError Int :=
  match requireParam params name with
  | .error e => .error e
  | .ok (.num n) => .ok n
  | .ok _ => .error (mustBeNumber name)

def optionalString (params : ArgMap) (name : String) : Except ValidationError (Option String) :=
  match argGet params name with
  | none => .ok none
  | some .null => .ok none
  | some (.str s) => .ok (some s)
  | some _ => .error (mustBeString name)

def optionalNumber (params : ArgMap) (name : String) : Except ValidationError (Option Int) :=
  match argGet params name with
  | none => .ok none
  | some .null => .ok none
  | some (.num n) => .ok (some n)
  | some _ => .error (mustBeNumber name)

def optionalBoolean (params : ArgMap) (name : String) : Except ValidationError (Option Bool) :=
  match argGet params name with
  | none => .ok none
  | some .null => .ok none
  | some (.bool b) => .ok (some b)
  | some _ => .error (mustBeBoolean name)

def mustBeOneOf (name : String) (values : List String) : ValidationError :=
  ⟨name, "Parameter '" ++ name ++ "' must be one of: " ++ String.intercalate ", " values⟩

def requireEnum (params : ArgMap) (name : String) (values : List String) :
    Except ValidationError String :=
  match requireString params name with
  | .error e => .error e
  | .ok s => if values.contains s then .ok s else .error (mustBeOneOf name values)

def optionalEnum (params : ArgMap) (name : String) (values : List String) :
    Except ValidationError (Option String) :=
  match optionalString params name with
  | .error e => .error e
  | .ok none => .ok none
  | .ok (some s) =>
      if values.contains s then .ok (some s) else .error (mustBeOneOf name values)

def isStringJson : Json → Bool
  | .str _ => true
  | _ => false

def mustBeStringArray (name : String) : ValidationError :=
  ⟨name, "Parameter '" ++ name ++ "' must be an array of strings"⟩

def optionalStringArray (params : ArgMap) (name : String) :
    Except ValidationError (Option (List String)) :=
  match argGet params name with
  | none => .ok none
  | some .null => .ok none
  | some (.arr xs) =>
      if xs.all isStringJson then
        .ok (some (xs.filterMap fun x => match x with | .str s => some s | _ => none))
      else .error (mustBeStringArray name)
  | some _ => .error (mustBeStringArray name)

/-! ## Field schemas and argument validation

The zod schemas are declared in `src/tools/*.ts` on each `server.tool`
registration; the code that enforces them (zod + the MCP SDK) is an external
dependency, not part of this repository's sources. -/

/-- The primitive/enum field types appearing in the declared zod schemas. -/
inductive FieldType : Type where
  | string
  | number
  | boolean
  | stringArray
  | enumOf : List String → FieldType
  deriving DecidableEq, Repr

/-- One declared field: name, type, and whether `.optional()` was absent. -/
structure FieldSpec where
  name : String
  type : FieldType
  required : Bool
  deriving DecidableEq, Repr

/-- Modelled from the spec: the zod/MCP-SDK argument-validation step is not
in this repository's sources (only the schema declarations are), so per
§4.2/§4.5 each declared field is checked with the matching validator of
`src/validation.ts`; a missing or `null` optional field passes, and every
failure names the offending field. -/
def checkField (m : ArgMap) (f : FieldSpec) : Except ValidationError Unit :=
  match f.required, f.type with
  | true, .string => (requireString m f.name).map fun _ => ()
  | true, .number => (requireNumber m f.name).map fun _ => ()
  | true, .boolean =>
      (match requireParam m f.name with
       | .error e => .error e
       | .ok (.bool _) => .ok ()
       | .ok _ => .error (mustBeBoolean f.name))
  | true, .stringArray =>
      (match requireParam m f.name with
       | .error e => .error e
       | .ok (.arr xs) =>
           if xs.all isStringJson then .ok () else .error (mustBeStringArray f.name)
       | .ok _ => .error (mustBeStringArray f.name))
  | true, .enumOf vs => (requireEnum m f.name vs).map fun _ => ()
  | false, .string => (optionalString m f.name).map fun _ => ()
  | false, .number => (optionalNumber m f.name).map fun _ => ()
  | false, .boolean => (optionalBoolean m f.name).map fun _ => ()
  | false, .stringArray => (optionalStringArray m f.name).map fun _ => ()
  | false, .enumOf vs => (optionalEnum m f.name vs).map fun _ => ()

/-- Modelled from the spec: the declared fields are validated in declaration
order and the first failure short-circuits (§4.5 "Validate"). -/
def validateSchema (fs : List FieldSpec) (m : ArgMap) : Except ValidationError Unit :=
  match fs with
  | [] => .ok ()
  | f :: rest =>
      match checkField m f with
      | .error e => .error e
      | .ok _ => validateSchema rest m

/-- Modelled from the spec: a validation failure is normalized to a
caller-facing error result carrying the field name and human message
(§4.5); no request is built. -/
def invalidArgumentsResponse (e : ValidationError) : ToolResponse :=
  { isError := true, text := "Invalid arguments: " ++ e.message }

/-! ## Handler-level call description -/

/-- One call a handler makes on the injected `GitLabApiClient`: the method
picks which of `get`/`post`/`put`/`delete` was used, `body` is the JSON map
passed to `post`/`put`, and `params` the query map passed to `get`. -/
structure OutboundCall where
  method : Method
  path : String
  body : Option Body
  params : List (String × String)

/-- A substitute for the remote client + transport, resolving one call:
`none` models the `undefined` a successful `delete` resolves to. -/
abbrev RemoteBehavior := OutboundCall → Except ToolError (Option Json)

/-- The client built by `createGitLabClient` over a given transport. -/
def remoteOf (t : Transport) : RemoteBehavior :=
  fun c => requestResult c.method t

/-- The wire request that `createGitLabClient.request` builds for a
handler-level call. -/
def wireRequest (baseUrl token : String) (c : OutboundCall) : OutboundRequest :=
  buildRequest baseUrl token c.method c.path c.body c.params

/-- The observable outcome of one tool invocation: the calls that reached
the remote client, and the rendered MCP result. -/
structure ToolOutcome where
  requests : List OutboundCall
  response : ToolResponse

/-- The universal handler shape in `src/tools/*.ts`: one client call inside
`try`, success rendered by the handler, every thrown failure rendered by
`handleError`. -/
def callRemote (call : OutboundCall) (onOk : Option Json → ToolResponse)
    (remote : RemoteBehavior) : ToolOutcome :=
  { requests := [call]
  , response :=
      match remote call with
      | .ok v => onOk v
      | .error e => handleError e }

/-- The fixed success marker every delete-family handler returns. -/
def statusSuccess : Json := Json.obj [("status", Json.str "success")]

/-! ## Typed access to validated arguments

Handlers in the source receive zod-parsed, typed `args`; these accessors
model that typed view over the raw map (they are only reached after
`validateSchema` succeeded, which guarantees the expected shapes). -/

def getStr (m : ArgMap) (k : String) : String :=
  match argGet m k with
  | some (.str s) => s
  | _ => ""

def getInt (m : ArgMap) (k : String) : Int :=
  match argGet m k with
  | some (.num n) => n
  | _ => 0

def getOptStr (m : ArgMap) (k : String) : Option String :=
  match argGet m k with
  | some (.str s) => some s
  | _ => none

def getOptInt (m : ArgMap) (k : String) : Option Int :=
  match argGet m k with
  | some (.num n) => some n
  | _ => none

def getOptBool (m : ArgMap) (k : String) : Option Bool :=
  match argGet m k with
  | some (.bool b) => some b
  | _ => none

def getStrArr (m : ArgMap) (k : String) : List String :=
  match argGet m k with
  | some (.arr xs) => xs.filterMap fun x => match x with | .str s => some s | _ => none
  | _ => []

/-- JS property assignment `b[k] = v`: replaces an existing binding in
place, otherwise appends. -/
def setKey {α : Type} (b : List (String × α)) (k : String) (v : α) : List (String × α) :=
  if b.any fun p => p.1 = k then b.map fun p => if p.1 = k then (k, v) else p
  else b ++ [(k, v)]

/-- `if (x !== undefined) body.k = x` — the conditional-assignment idiom
every handler uses for optional fields. -/
def optSet {α : Type} (b : List (String × α)) (k : String) (v : Option α) : List (String × α) :=
  match v with
  | some x => setKey b k x
  | none => b
/-! ## Tool handlers (`src/tools/*.ts`), one per registered tool

Each handler is split into the body/params map it builds, the client call
it makes, and the handler itself (the `try`/`catch` shape `callRemote`). -/

/-- Body built by `create_webhook` (webhooks.ts lines 53–63). -/
def create_webhook_body (m : ArgMap) : Body :=
  let body : Body := [("url", .str (getStr m "url"))]
  let body := optSet body "token" ((getOptStr m "token").map .str)
  let body := optSet body "push_events" ((getOptBool m "push_events").map .bool)
  let body := optSet body "merge_requests_events" ((getOptBool m "merge_requests_events").map .bool)
  let body := optSet body "tag_push_events" ((getOptBool m "tag_push_events").map .bool)
  let body := optSet body "issues_events" ((getOptBool m "issues_events").map .bool)
  let body := optSet body "pipeline_events" ((getOptBool m "pipeline_events").map .bool)
  let body := optSet body "job_events" ((getOptBool m "job_events").map .bool)
  let body := optSet body "note_events" ((getOptBool m "note_events").map .bool)
  let body := optSet body "releases_events" ((getOptBool m "releases_events").map .bool)
  let body := optSet body "enable_ssl_verification" ((getOptBool m "enable_ssl_verification").map .bool)
  body

def create_webhook_call (m : ArgMap) : OutboundCall :=
  ⟨.POST, "/projects/" ++ encodeURIComponent (getStr m "project_id") ++ "/hooks",
    some (create_webhook_body m), []⟩

/-- `create_webhook` (webhooks.ts lines 51–70). -/
def create_webhook (m : ArgMap) : RemoteBehavior → ToolOutcome :=
  callRemote (create_webhook_call m) (fun v => jsonResponse (v.getD .null))

def list_webhooks_call (m : ArgMap) : OutboundCall :=
  ⟨.GET, "/projects/" ++ encodeURIComponent (getStr m "project_id") ++ "/hooks", none, []⟩

/-- `list_webhooks`. -/
def list_webhooks (m : ArgMap) : RemoteBehavior → ToolOutcome :=
  callRemote (list_webhooks_call m) (fun v => jsonResponse (v.getD .null))

/-- Body built by `update_webhook` (webhooks.ts lines 111–122): starts
empty, every field is optional. -/
def update_webhook_body (m : ArgMap) : Body :=
  let body : Body := []
  let body := optSet body "url" ((getOptStr m "url").map .str)
  let body := optSet body "token" ((getOptStr m "token").map .str)
  let body := optSet body "push_events" ((getOptBool m "push_events").map .bool)
  let body := optSet body "merge_requests_events" ((getOptBool m "merge_requests_events").map .bool)
  let body := optSet body "tag_push_events" ((getOptBool m "tag_push_events").map .bool)
  let body := optSet body "issues_events" ((getOptBool m "issues_events").map .bool)
  let body := optSet body "pipeline_events" ((getOptBool m "pipeline_events").map .bool)
  let body := optSet body "job_events" ((getOptBool m "job_events").map .bool)
  let body := optSet body "note_events" ((getOptBool m "note_events").map .bool)
  let body := optSet body "releases_events" ((getOptBool m "releases_events").map .bool)
  let body := optSet body "enable_ssl_verification" ((getOptBool m "enable_ssl_verification").map .bool)
  body

def update_webhook_call (m : ArgMap) : OutboundCall :=
  ⟨.PUT,
    "/projects/" ++ encodeURIComponent (getStr m "project_id") ++ "/hooks/"
      ++ numToString (getInt m "hook_id"),
    some (update_webhook_body m), []⟩

/-- `update_webhook` (webhooks.ts lines 91–133). -/
def update_webhook (m : ArgMap) : RemoteBehavior → ToolOutcome :=
  callRemote (update_webhook_call m) (fun v => jsonResponse (v.getD .null))

def delete_webhook_call (m : ArgMap) : OutboundCall :=
  ⟨.DELETE,
    "/projects/" ++ encodeURIComponent (getStr m "project_id") ++ "/hooks/"
      ++ numToString (getInt m "hook_id"),
    none, []⟩

/-- `delete_webhook`. -/
def delete_webhook (m : ArgMap) : RemoteBehavior → ToolOutcome :=
  callRemote (delete_webhook_call m) (fun _ => jsonResponse statusSuccess)

def test_webhook_call (m : ArgMap) : OutboundCall :=
  ⟨.POST,
    "/projects/" ++ encodeURIComponent (getStr m "project_id") ++ "/hooks/"
      ++ numToString (getInt m "hook_id") ++ "/test/" ++ getStr m "trigger",
    some [], []⟩

/-- `test_webhook` (webhooks.ts lines 162–173): the `trigger` segment is
interpolated verbatim, with no `encodeURIComponent`. -/
def test_webhook (m : ArgMap) : RemoteBehavior → ToolOutcome :=
  callRemote (test_webhook_call m) (fun v => jsonResponse (v.getD .null))

/-- Body built by `create_ci_variable` (ci-variables.ts lines 48–52). -/
def create_ci_variable_body (m : ArgMap) : Body :=
  let body : Body := [("key", .str (getStr m "key")), ("value", .str (getStr m "value"))]
  let body := optSet body "protected" ((getOptBool m "protected").map .bool)
  let body := optSet body "masked" ((getOptBool m "masked").map .bool)
  let body := optSet body "environment_scope" ((getOptStr m "environment_scope").map .str)
  let body := optSet body "variable_type" ((getOptStr m "variable_type").map .str)
  body

def create_ci_variable_call (m : ArgMap) : OutboundCall :=
  ⟨.POST, "/projects/" ++ encodeURIComponent (getStr m "project_id") ++ "/variables",
    some (create_ci_variable_body m), []⟩

/-- `create_ci_variable`. -/
def create_ci_variable (m : ArgMap) : RemoteBehavior → ToolOutcome :=
  callRemote (create_ci_variable_call m) (fun v => jsonResponse (v.getD .null))

def list_ci_variables_call (m : ArgMap) : OutboundCall :=
  ⟨.GET, "/projects/" ++ encodeURIComponent (getStr m "project_id") ++ "/variables", none, []⟩

/-- `list_ci_variables`. -/
def list_ci_variables (m : ArgMap) : RemoteBehavior → ToolOutcome :=
  callRemote (list_ci_variables_call m) (fun v => jsonResponse (v.getD .null))

/-- Body built by `update_ci_variable` (ci-variables.ts lines 94–98):
`value` is required, the identifiers go to the path. -/
def update_ci_variable_body (m : ArgMap) : Body :=
  let body : Body := [("value", .str (getStr m "value"))]
  let body := optSet body "protected" ((getOptBool m "protected").map .bool)
  let body := optSet body "masked" ((getOptBool m "masked").map .bool)
  let body := optSet body "environment_scope" ((getOptStr m "environment_scope").map .str)
  let body := optSet body "variable_type" ((getOptStr m "variable_type").map .str)
  body

def update_ci_variable_call (m : ArgMap) : OutboundCall :=
  ⟨.PUT,
    "/projects/" ++ encodeURIComponent (getStr m "project_id") ++ "/variables/"
      ++ encodeURIComponent (getStr m "key"),
    some (update_ci_variable_body m), []⟩

/-- `update_ci_variable` (ci-variables.ts lines 80–109). -/
def update_ci_variable (m : ArgMap) : RemoteBehavior → ToolOutcome :=
  callRemote (update_ci_variable_call m) (fun v => jsonResponse (v.getD .null))

def delete_ci_variable_call (m : ArgMap) : OutboundCall :=
  ⟨.DELETE,
    "/projects/" ++ encodeURIComponent (getStr m "project_id") ++ "/variables/"
      ++ encodeURIComponent (getStr m "key"),
    none, []⟩

/-- `delete_ci_variable`. -/
def delete_ci_variable (m : ArgMap) : RemoteBehavior → ToolOutcome :=
  callRemote (delete_ci_variable_call m) (fun _ => jsonResponse statusSuccess)

/-- Body built by `protect_branch` (protected-branches.ts lines 46–49). -/
def protect_branch_body (m : ArgMap) : Body :=
  let body : Body := [("name", .str (getStr m "name"))]
  let body := optSet body "push_access_level" ((getOptInt m "push_access_level").map .num)
  let body := optSet body "merge_access_level" ((getOptInt m "merge_access_level").map .num)
  let body := optSet body "allow_force_push" ((getOptBool m "allow_force_push").map .bool)
  body

def protect_branch_call (m : ArgMap) : OutboundCall :=
  ⟨.POST, "/projects/" ++ encodeURIComponent (getStr m "project_id") ++ "/protected_branches",
    some (protect_branch_body m), []⟩

/-- `protect_branch`. -/
def protect_branch (m : ArgMap) : RemoteBehavior → ToolOutcome :=
  callRemote (protect_branch_call m) (fun v => jsonResponse (v.getD .null))

def list_protected_branches_call (m : ArgMap) : OutboundCall :=
  ⟨.GET, "/projects/" ++ encodeURIComponent (getStr m "project_id") ++ "/protected_branches",
    none, []⟩

/-- `list_protected_branches`. -/
def list_protected_branches (m : ArgMap) : RemoteBehavior → ToolOutcome :=
  callRemote (list_protected_branches_call m) (fun v => jsonResponse (v.getD .null))

def unprotect_branch_call (m : ArgMap) : OutboundCall :=
  ⟨.DELETE,
    "/projects/" ++ encodeURIComponent (getStr m "project_id") ++ "/protected_branches/"
      ++ encodeURIComponent (getStr m "name"),
    none, []⟩

/-- `unprotect_branch` (protected-branches.ts lines 89–99): both the
project identifier and the branch name are individually encoded. -/
def unprotect_branch (m : ArgMap) : RemoteBehavior → ToolOutcome :=
  callRemote (unprotect_branch_call m) (fun _ => jsonResponse statusSuccess)

/-- Body built by `update_project_settings` (project-settings.ts lines
48–55): starts empty, every settings field is optional. -/
def update_project_settings_body (m : ArgMap) : Body :=
  let body : Body := []
  let body := optSet body "merge_method" ((getOptStr m "merge_method").map .str)
  let body := optSet body "squash_option" ((getOptStr m "squash_option").map .str)
  let body := optSet body "only_allow_merge_if_pipeline_succeeds"
    ((getOptBool m "only_allow_merge_if_pipeline_succeeds").map .bool)
  let body := optSet body "remove_source_branch_after_merge"
    ((getOptBool m "remove_source_branch_after_merge").map .bool)
  let body := optSet body "auto_devops_enabled" ((getOptBool m "auto_devops_enabled").map .bool)
  let body := optSet body "shared_runners_enabled" ((getOptBool m "shared_runners_enabled").map .bool)
  let body := optSet body "container_registry_enabled"
    ((getOptBool m "container_registry_enabled").map .bool)
  body

def update_project_settings_call (m : ArgMap) : OutboundCall :=
  ⟨.PUT, "/projects/" ++ encodeURIComponent (getStr m "project_id"),
    some (update_project_settings_body m), []⟩

/-- `update_project_settings` (project-settings.ts lines 33–63). -/
def update_project_settings (m : ArgMap) : RemoteBehavior → ToolOutcome :=
  callRemote (update_project_settings_call m) (fun v => jsonResponse (v.getD .null))

/-- Body built by `create_group` (groups.ts lines 46–49). -/
def create_group_body (m : ArgMap) : Body :=
  let body : Body := [("name", .str (getStr m "name")), ("path", .str (getStr m "path"))]
  let body := optSet body "visibility" ((getOptStr m "visibility").map .str)
  let body := optSet body "parent_id" ((getOptInt m "parent_id").map .num)
  let body := optSet body "description" ((getOptStr m "description").map .str)
  body

def create_group_call (m : ArgMap) : OutboundCall :=
  ⟨.POST, "/groups", some (create_group_body m), []⟩

/-- `create_group` (groups.ts lines 44–57). -/
def create_group (m : ArgMap) : RemoteBehavior → ToolOutcome :=
  callRemote (create_group_call m) (fun v => jsonResponse (v.getD .null))

/-- Query map built by `list_groups` (groups.ts lines 70–73): optional
filters coerced with `String(…)`. -/
def list_groups_params (m : ArgMap) : List (String × String) :=
  let params : List (String × String) := []
  let params := optSet params "search" (getOptStr m "search")
  let params := optSet params "owned"
    ((getOptBool m "owned").map fun b => if b then "true" else "false")
  let params := optSet params "min_access_level" ((getOptInt m "min_access_level").map numToString)
  params

def list_groups_call (m : ArgMap) : OutboundCall :=
  ⟨.GET, "/groups", none, list_groups_params m⟩

/-- `list_groups`. -/
def list_groups (m : ArgMap) : RemoteBehavior → ToolOutcome :=
  callRemote (list_groups_call m) (fun v => jsonResponse (v.getD .null))

def delete_group_call (m : ArgMap) : OutboundCall :=
  ⟨.DELETE, "/groups/" ++ numToString (getInt m "group_id"), none, []⟩

/-- `delete_group` (groups.ts): numeric group id interpolated in decimal. -/
def delete_group (m : ArgMap) : RemoteBehavior → ToolOutcome :=
  callRemote (delete_group_call m) (fun _ => jsonResponse statusSuccess)

/-- Body built by `create_project_access_token` (access-tokens.ts lines
46–51): all fields required, none optional. -/
def create_project_access_token_body (m : ArgMap) : Body :=
  [("name", .str (getStr m "name")),
   ("scopes", .arr ((getStrArr m "scopes").map .str)),
   ("access_level", .num (getInt m "access_level")),
   ("expires_at", .str (getStr m "expires_at"))]

def create_project_access_token_call (m : ArgMap) : OutboundCall :=
  ⟨.POST, "/projects/" ++ encodeURIComponent (getStr m "project_id") ++ "/access_tokens",
    some (create_project_access_token_body m), []⟩

/-- `create_project_access_token`. -/
def create_project_access_token (m : ArgMap) : RemoteBehavior → ToolOutcome :=
  callRemote (create_project_access_token_call m) (fun v => jsonResponse (v.getD .null))

def list_project_access_tokens_call (m : ArgMap) : OutboundCall :=
  ⟨.GET, "/projects/" ++ encodeURIComponent (getStr m "project_id") ++ "/access_tokens",
    none, []⟩

/-- `list_project_access_tokens`. -/
def list_project_access_tokens (m : ArgMap) : RemoteBehavior → ToolOutcome :=
  callRemote (list_project_access_tokens_call m) (fun v => jsonResponse (v.getD .null))

def revoke_project_access_token_call (m : ArgMap) : OutboundCall :=
  ⟨.DELETE,
    "/projects/" ++ encodeURIComponent (getStr m "project_id") ++ "/access_tokens/"
      ++ numToString (getInt m "token_id"),
    none, []⟩

/-- `revoke_project_access_token`. -/
def revoke_project_access_token (m : ArgMap) : RemoteBehavior → ToolOutcome :=
  callRemote (revoke_project_access_token_call m) (fun _ => jsonResponse statusSuccess)

def create_pipeline_trigger_call (m : ArgMap) : OutboundCall :=
  ⟨.POST, "/projects/" ++ encodeURIComponent (getStr m "project_id") ++ "/triggers",
    some [("description", .str (getStr m "description"))], []⟩

/-- `create_pipeline_trigger` (pipeline-triggers.ts). -/
def create_pipeline_trigger (m : ArgMap) : RemoteBehavior → ToolOutcome :=
  callRemote (create_pipeline_trigger_call m) (fun v => jsonResponse (v.getD .null))

def list_pipeline_triggers_call (m : ArgMap) : OutboundCall :=
  ⟨.GET, "/projects/" ++ encodeURIComponent (getStr m "project_id") ++ "/triggers", none, []⟩

/-- `list_pipeline_triggers`. -/
def list_pipeline_triggers (m : ArgMap) : RemoteBehavior → ToolOutcome :=
  callRemote (list_pipeline_triggers_call m) (fun v => jsonResponse (v.getD .null))

def delete_pipeline_trigger_call (m : ArgMap) : OutboundCall :=
  ⟨.DELETE,
    "/projects/" ++ encodeURIComponent (getStr m "project_id") ++ "/triggers/"
      ++ numToString (getInt m "trigger_id"),
    none, []⟩

/-- `delete_pipeline_trigger` (pipeline-triggers.ts lines 74–91). -/
def delete_pipeline_trigger (m : ArgMap) : RemoteBehavior → ToolOutcome :=
  callRemote (delete_pipeline_trigger_call m) (fun _ => jsonResponse statusSuccess)
/-! ## Operation catalog -/

/-- The 22 registered tools. -/
inductive OpId : Type where
  | create_webhook | list_webhooks | update_webhook | delete_webhook | test_webhook
  | create_ci_variable | list_ci_variables | update_ci_variable | delete_ci_variable
  | protect_branch | list_protected_branches | unprotect_branch
  | update_project_settings
  | create_group | list_groups | delete_group
  | create_project_access_token | list_project_access_tokens | revoke_project_access_token
  | create_pipeline_trigger | list_pipeline_triggers | delete_pipeline_trigger
  deriving DecidableEq, Repr

def reqS (n : String) : FieldSpec := ⟨n, .string, true⟩
def reqN (n : String) : FieldSpec := ⟨n, .number, true⟩
def optS (n : String) : FieldSpec := ⟨n, .string, false⟩
def optN (n : String) : FieldSpec := ⟨n, .number, false⟩
def optB (n : String) : FieldSpec := ⟨n, .boolean, false⟩

def webhookEventFlags : List FieldSpec :=
  [optB "push_events", optB "merge_requests_events", optB "tag_push_events",
   optB "issues_events", optB "pipeline_events", optB "job_events",
   optB "note_events", optB "releases_events", optB "enable_ssl_verification"]

/-- The zod field schema of every tool, transcribed from `src/tools/*.ts`
in declaration order. -/
def schemaOf : OpId → List FieldSpec
  | .create_webhook => [reqS "project_id", reqS "url", optS "token"] ++ webhookEventFlags
  | .list_webhooks => [reqS "project_id"]
  | .update_webhook => [reqS "project_id", reqN "hook_id", optS "url", optS "token"] ++ webhookEventFlags
  | .delete_webhook => [reqS "project_id", reqN "hook_id"]
  | .test_webhook => [reqS "project_id", reqN "hook_id", reqS "trigger"]
  | .create_ci_variable =>
      [reqS "project_id", reqS "key", reqS "value", optB "protected", optB "masked",
       optS "environment_scope", ⟨"variable_type", .enumOf ["env_var", "file"], false⟩]
  | .list_ci_variables => [reqS "project_id"]
  | .update_ci_variable =>
      [reqS "project_id", reqS "key", reqS "value", optB "protected", optB "masked",
       optS "environment_scope", ⟨"variable_type", .enumOf ["env_var", "file"], false⟩]
  | .delete_ci_variable => [reqS "project_id", reqS "key"]
  | .protect_branch =>
      [reqS "project_id", reqS "name", optN "push_access_level", optN "merge_access_level",
       optB "allow_force_push"]
  | .list_protected_branches => [reqS "project_id"]
  | .unprotect_branch => [reqS "project_id", reqS "name"]
  | .update_project_settings =>
      [reqS "project_id",
       ⟨"merge_method", .enumOf ["merge", "rebase_merge", "ff"], false⟩,
       ⟨"squash_option", .enumOf ["default_off", "default_on", "always", "never"], false⟩,
       optB "only_allow_merge_if_pipeline_succeeds", optB "remove_source_branch_after_merge",
       optB "auto_devops_enabled", optB "shared_runners_enabled", optB "container_registry_enabled"]
  | .create_group =>
      [reqS "name", reqS "path",
       ⟨"visibility", .enumOf ["private", "internal", "public"], false⟩,
       optN "parent_id", optS "description"]
  | .list_groups => [optS "search", optB "owned", optN "min_access_level"]
  | .delete_group => [reqN "group_id"]
  | .create_project_access_token =>
      [reqS "project_id", reqS "name", ⟨"scopes", .stringArray, true⟩,
       reqN "access_level", reqS "expires_at"]
  | .list_project_access_tokens => [reqS "project_id"]
  | .revoke_project_access_token => [reqS "project_id", reqN "token_id"]
  | .create_pipeline_trigger => [reqS "project_id", reqS "description"]
  | .list_pipeline_triggers => [reqS "project_id"]
  | .delete_pipeline_trigger => [reqS "project_id", reqN "trigger_id"]

def handlerOf : OpId → ArgMap → RemoteBehavior → ToolOutcome
  | .create_webhook => create_webhook
  | .list_webhooks => list_webhooks
  | .update_webhook => update_webhook
  | .delete_webhook => delete_webhook
  | .test_webhook => test_webhook
  | .create_ci_variable => create_ci_variable
  | .list_ci_variables => list_ci_variables
  | .update_ci_variable => update_ci_variable
  | .delete_ci_variable => delete_ci_variable
  | .protect_branch => protect_branch
  | .list_protected_branches => list_protected_branches
  | .unprotect_branch => unprotect_branch
  | .update_project_settings => update_project_settings
  | .create_group => create_group
  | .list_groups => list_groups
  | .delete_group => delete_group
  | .create_project_access_token => create_project_access_token
  | .list_project_access_tokens => list_project_access_tokens
  | .revoke_project_access_token => revoke_project_access_token
  | .create_pipeline_trigger => create_pipeline_trigger
  | .list_pipeline_triggers => list_pipeline_triggers
  | .delete_pipeline_trigger => delete_pipeline_trigger

/-- One tool invocation end to end: argument validation (which
short-circuits with zero outbound requests), then the handler. -/
def dispatch (op : OpId) (m : ArgMap) (remote : RemoteBehavior) : ToolOutcome :=
  match validateSchema (schemaOf op) m with
  | .error e => { requests := [], response := invalidArgumentsResponse e }
  | .ok _ => handlerOf op m remote

/-- A remote behavior that resolves every call with an empty JSON object. -/
def remoteOk : RemoteBehavior := fun _ => .ok (some (Json.obj []))

/-- "The caller supplied a non-undefined value for `k`" (with the §4.2
refinement that an explicit `null` counts as not supplied). -/
def supplied (m : ArgMap) (k : String) : Prop :=
  argGet m k ≠ none ∧ argGet m k ≠ some Json.null

/-! ## General lemmas -/

def keysOf {α : Type} (b : List (String × α)) : List String := b.map Prod.fst

theorem mem_keysOf_setKey {α : Type} (b : List (String × α)) (k k' : String) (v : α) :
    k ∈ keysOf (setKey b k' v) ↔ k ∈ keysOf b ∨ k = k' := by
  unfold setKey keysOf
  split
  case isTrue h =>
    have hmap : (b.map fun p => if p.1 = k' then (k', v) else p).map Prod.fst = b.map Prod.fst := by
      rw [List.map_map]
      apply List.map_congr_left
      intro p _
      by_cases hp : p.1 = k' <;> simp [hp]
    rw [hmap]
    obtain ⟨p, hp, hpk⟩ := List.any_eq_true.mp h
    have hk' : k' ∈ b.map Prod.fst := by
      refine List.mem_map.mpr ⟨p, hp, ?_⟩
      exact of_decide_eq_true hpk
    constructor
    · exact fun h1 => Or.inl h1
    · rintro (h1 | rfl)
      · exact h1
      · exact hk'
  case isFalse h =>
    simp
theorem mem_keysOf_optSet {α : Type} (b : List (String × α)) (k k' : String) (v : Option α) :
    k ∈ keysOf (optSet b k' v) ↔ k ∈ keysOf b ∨ (k = k' ∧ v ≠ none) := by
  cases v with
  | none => simp [optSet]
  | some x => simp [optSet, mem_keysOf_setKey]

theorem keysOf_nil {α : Type} : keysOf ([] : List (String × α)) = [] := rfl

theorem keysOf_cons {α : Type} (p : String × α) (l : List (String × α)) :
    keysOf (p :: l) = p.1 :: keysOf l := rfl

theorem map_ne_none {α β : Type} (o : Option α) (f : α → β) :
    o.map f ≠ none ↔ o ≠ none := by
  cases o <;> simp

theorem getD_mem_or {α : Type} : ∀ (l : List α) (n : Nat) (d : α), l.getD n d ∈ l ∨ l.getD n d = d
  | [], _, _ => Or.inr (by simp [List.getD])
  | a :: _, 0, _ => Or.inl (by simp [List.getD])
  | _ :: l, n + 1, d => by
      rw [List.getD_cons_succ]
      rcases getD_mem_or l n d with h | h
      · exact Or.inl (List.mem_cons_of_mem _ h)
      · exact Or.inr h

theorem hexDigitChar_ne_slash (n : Nat) : hexDigitChar n ≠ '/' := by
  unfold hexDigitChar
  rcases getD_mem_or "0123456789ABCDEF".toList n '0' with h | h
  · intro hc
    rw [hc] at h
    revert h
    decide
  · rw [h]
    decide

theorem slash_not_mem_encodeURIComponentChar (c : Char) : '/' ∉ encodeURIComponentChar c := by
  unfold encodeURIComponentChar
  split
  case isTrue h =>
    intro hm
    rw [List.mem_singleton] at hm
    rw [← hm] at h
    exact absurd h (by decide)
  case isFalse h =>
    intro hm
    rw [List.mem_flatten] at hm
    obtain ⟨l, hl, hcl⟩ := hm
    rw [List.mem_map] at hl
    obtain ⟨b, _, rfl⟩ := hl
    unfold percentByteChars at hcl
    simp only [List.mem_cons, List.not_mem_nil, or_false] at hcl
    rcases hcl with h1 | h1 | h1
    · exact absurd h1 (by decide)
    · exact hexDigitChar_ne_slash _ h1.symm
    · exact hexDigitChar_ne_slash _ h1.symm

/-- The percent-encoder never emits a path separator: an encoded
placeholder always stays inside a single path segment. -/
theorem slash_not_mem_encodeURIComponent (s : String) : '/' ∉ (encodeURIComponent s).data := by
  intro hm
  have : '/' ∈ (s.data.map encodeURIComponentChar).flatten := hm
  rw [List.mem_flatten] at this
  obtain ⟨l, hl, hcl⟩ := this
  rw [List.mem_map] at hl
  obtain ⟨c, _, rfl⟩ := hl
  exact slash_not_mem_encodeURIComponentChar c hcl

/-! ## Validation-layer lemmas -/

theorem requireParam_error {m : ArgMap} {n : String} {e : ValidationError}
    (h : requireParam m n = .error e) : e.paramName = n := by
  unfold requireParam at h
  split at h
  · injection h with h'
    rw [← h']
  · injection h with h'
    rw [← h']
  · exact absurd h (by simp)

theorem requireString_error {m : ArgMap} {n : String} {e : ValidationError}
    (h : requireString m n = .error e) : e.paramName = n := by
  unfold requireString at h
  split at h
  · injection h with h'
    exact requireParam_error (by rw [‹requireParam m n = _›, h'])
  · exact absurd h (by simp)
  · injection h with h'
    rw [← h']
    rfl

theorem requireNumber_error {m : ArgMap} {n : String} {e : ValidationError}
    (h : requireNumber m n = .error e) : e.paramName = n := by
  unfold requireNumber at h
  split at h
  · injection h with h'
    exact requireParam_error (by rw [‹requireParam m n = _›, h'])
  · exact absurd h (by simp)
  · injection h with h'
    rw [← h']
    rfl

theorem optionalString_error {m : ArgMap} {n : String} {e : ValidationError}
    (h : optionalString m n = .error e) : e.paramName = n := by
  unfold optionalString at h
  split at h
  · simp at h
  · simp at h
  · simp at h
  · injection h with h'
    rw [← h']
    rfl

theorem optionalNumber_error {m : ArgMap} {n : String} {e : ValidationError}
    (h : optionalNumber m n = .error e) : e.paramName = n := by
  unfold optionalNumber at h
  split at h
  · simp at h
  · simp at h
  · simp at h
  · injection h with h'
    rw [← h']
    rfl

theorem optionalBoolean_error {m : ArgMap} {n : String} {e : ValidationError}
    (h : optionalBoolean m n = .error e) : e.paramName = n := by
  unfold optionalBoolean at h
  split at h
  · simp at h
  · simp at h
  · simp at h
  · injection h with h'
    rw [← h']
    rfl

theorem requireEnum_error {m : ArgMap} {n : String} {vs : List String} {e : ValidationError}
    (h : requireEnum m n vs = .error e) : e.paramName = n := by
  unfold requireEnum at h
  split at h
  · injection h with h'
    exact requireString_error (by rw [‹requireString m n = _›, h'])
  · split at h
    · exact absurd h (by simp)
    · injection h with h'
      rw [← h']
      rfl

theorem optionalEnum_error {m : ArgMap} {n : String} {vs : List String} {e : ValidationError}
    (h : optionalEnum m n vs = .error e) : e.paramName = n := by
  unfold optionalEnum at h
  split at h
  · injection h with h'
    exact optionalString_error (by rw [‹optionalString m n = _›, h'])
  · exact absurd h (by simp)
  · split at h
    · exact absurd h (by simp)
    · injection h with h'
      rw [← h']
      rfl

theorem optionalStringArray_error {m : ArgMap} {n : String} {e : ValidationError}
    (h : optionalStringArray m n = .error e) : e.paramName = n := by
  unfold optionalStringArray at h
  split at h
  · simp at h
  · simp at h
  · split at h
    · simp at h
    · injection h with h'
      rw [← h']
      rfl
  · injection h with h'
    rw [← h']
    rfl

/-- Mapping a result to `Unit` preserves which error it was. -/
theorem map_unit_error {α : Type} {e : ValidationError} {r : Except ValidationError α}
    (h : Except.map (fun _ => ()) r = .error e) : r = .error e := by
  cases r with
  | error e' => simpa [Except.map] using h
  | ok v => simp [Except.map] at h

/-- Every failure of a field check names the checked field. -/
theorem checkField_error_names {m : ArgMap} {f : FieldSpec} {e : ValidationError}
    (h : checkField m f = .error e) : e.paramName = f.name := by
  obtain ⟨n, ty, req⟩ := f
  cases req <;> cases ty <;> simp only [checkField] at h
  · exact optionalString_error (map_unit_error h)
  · exact optionalNumber_error (map_unit_error h)
  · exact optionalBoolean_error (map_unit_error h)
  · exact optionalStringArray_error (map_unit_error h)
  · exact optionalEnum_error (map_unit_error h)
  · exact requireString_error (map_unit_error h)
  · exact requireNumber_error (map_unit_error h)
  · -- required boolean
    split at h
    · injection h with h'
      exact requireParam_error (by rw [‹requireParam m n = _›, h'])
    · simp at h
    · injection h with h'
      rw [← h']
      rfl
  · -- required string array
    split at h
    · injection h with h'
      exact requireParam_error (by rw [‹requireParam m n = _›, h'])
    · split at h
      · simp at h
      · injection h with h'
        rw [← h']
        rfl
    · injection h with h'
      rw [← h']
      rfl
  · exact requireEnum_error (map_unit_error h)

/-- A required field that is absent from the argument map fails its check
with the `requireParam` message naming it. -/
theorem checkField_missing_required {m : ArgMap} {f : FieldSpec}
    (hreq : f.required = true) (hmiss : argGet m f.name = none) :
    checkField m f = .error ⟨f.name, "Missing required parameter: " ++ f.name⟩ := by
  obtain ⟨n, ty, req⟩ := f
  simp only at hreq hmiss
  subst hreq
  cases ty <;>
    simp [checkField, requireString, requireNumber, requireEnum, requireParam, Except.map, hmiss]

/-- Checking an enum field against a supplied string reduces to membership
in the declared value set. -/
theorem checkField_enum {m : ArgMap} {f : FieldSpec} {vs : List String} {s : String}
    (hty : f.type = .enumOf vs) (hv : argGet m f.name = some (.str s)) :
    checkField m f =
      if vs.contains s then .ok () else .error (mustBeOneOf f.name vs) := by
  obtain ⟨n, ty, req⟩ := f
  simp only at hty hv
  subst hty
  cases req <;>
    simp only [checkField, requireEnum, optionalEnum, requireString, optionalString,
      requireParam, hv] <;>
    by_cases hs : s ∈ vs <;>
    simp [hs, Except.map]

theorem validateSchema_ok_of {m : ArgMap} :
    ∀ {fs : List FieldSpec}, (∀ f ∈ fs, checkField m f = .ok ()) → validateSchema fs m = .ok ()
  | [], _ => rfl
  | f :: rest, h => by
      unfold validateSchema
      rw [h f (List.mem_cons_self f rest)]
      exact validateSchema_ok_of fun g hg => h g (List.mem_cons_of_mem f hg)

theorem validateSchema_ok_field {m : ArgMap} :
    ∀ {fs : List FieldSpec} {f : FieldSpec},
      validateSchema fs m = .ok () → f ∈ fs → checkField m f = .ok ()
  | [], _, _, hf => absurd hf (List.not_mem_nil _)
  | g :: rest, f, hok, hf => by
      unfold validateSchema at hok
      cases hg : checkField m g with
      | error e => rw [hg] at hok; exact absurd hok (by simp)
      | ok u =>
          rw [hg] at hok
          rcases List.mem_cons.mp hf with rfl | hf'
          · cases u; exact hg
          · exact validateSchema_ok_field hok hf'

/-- When every field other than `g` checks out and `g` itself fails, the
whole-schema validation fails with exactly `g`'s error. -/
theorem validateSchema_first_error {m : ArgMap} {g : FieldSpec} {e : ValidationError} :
    ∀ {fs : List FieldSpec}, g ∈ fs → (∀ f ∈ fs, f ≠ g → checkField m f = .ok ()) →
      checkField m g = .error e → validateSchema fs m = .error e
  | [], hg, _, _ => absurd hg (List.not_mem_nil _)
  | f :: rest, hg, hrest, herr => by
      unfold validateSchema
      by_cases hfg : f = g
      · subst hfg
        rw [herr]
      · rw [hrest f (List.mem_cons_self f rest) hfg]
        have hg' : g ∈ rest := by
          rcases List.mem_cons.mp hg with h | h
          · exact absurd h.symm hfg
          · exact h
        exact validateSchema_first_error hg'
          (fun f' hf' => hrest f' (List.mem_cons_of_mem f hf')) herr

/-- Every handler issues exactly one call on the remote client. -/
theorem handlerOf_requests_length (op : OpId) (m : ArgMap) (remote : RemoteBehavior) :
    (handlerOf op m remote).requests.length = 1 := by
  cases op <;> rfl

/-- When the remote client rejects every call with `e`, every handler
renders `handleError e`. -/
theorem handlerOf_response_error (op : OpId) (m : ArgMap) (remote : RemoteBehavior)
    (e : ToolError) (h : ∀ c, remote c = .error e) :
    (handlerOf op m remote).response = handleError e := by
  cases op <;> simp [handlerOf, callRemote, h,
    create_webhook, list_webhooks, update_webhook, delete_webhook, test_webhook,
    create_ci_variable, list_ci_variables, update_ci_variable, delete_ci_variable,
    protect_branch, list_protected_branches, unprotect_branch,
    update_project_settings, create_group, list_groups, delete_group,
    create_project_access_token, list_project_access_tokens, revoke_project_access_token,
    create_pipeline_trigger, list_pipeline_triggers, delete_pipeline_trigger]

/-! ## Bridging: a passed optional check ties the typed accessor to
whether the caller supplied a value -/

theorem optStr_supplied {m : ArgMap} {k : String}
    (h : checkField m ⟨k, .string, false⟩ = .ok ()) :
    getOptStr m k ≠ none ↔ supplied m k := by
  simp only [checkField] at h
  unfold supplied getOptStr
  cases hv : argGet m k with
  | none => simp
  | some v =>
      cases v <;> simp_all [optionalString, Except.map, hv]

theorem optInt_supplied {m : ArgMap} {k : String}
    (h : checkField m ⟨k, .number, false⟩ = .ok ()) :
    getOptInt m k ≠ none ↔ supplied m k := by
  simp only [checkField] at h
  unfold supplied getOptInt
  cases hv : argGet m k with
  | none => simp
  | some v =>
      cases v <;> simp_all [optionalNumber, Except.map, hv]

theorem optBool_supplied {m : ArgMap} {k : String}
    (h : checkField m ⟨k, .boolean, false⟩ = .ok ()) :
    getOptBool m k ≠ none ↔ supplied m k := by
  simp only [checkField] at h
  unfold supplied getOptBool
  cases hv : argGet m k with
  | none => simp
  | some v =>
      cases v <;> simp_all [optionalBoolean, Except.map, hv]

theorem optEnum_supplied {m : ArgMap} {k : String} {vs : List String}
    (h : checkField m ⟨k, .enumOf vs, false⟩ = .ok ()) :
    getOptStr m k ≠ none ↔ supplied m k := by
  simp only [checkField] at h
  unfold supplied getOptStr
  cases hv : argGet m k with
  | none => simp
  | some v =>
      cases v <;> simp_all [optionalEnum, optionalString, Except.map, hv]

theorem stringAppend_assoc (a b c : String) : (a ++ b) ++ c = a ++ (b ++ c) := by
  rcases a with ⟨la⟩
  rcases b with ⟨lb⟩
  rcases c with ⟨lc⟩
  show String.mk ((la ++ lb) ++ lc) = String.mk (la ++ (lb ++ lc))
  rw [List.append_assoc]

/-! ## Claim theorems -/

/-- C10: a connectivity failure wrapping cause `c` is rendered with the
fixed connectivity prefix twice — once baked into the
`GitLabConnectionError` constructor's message and once prepended again by
`handleError` — so the caller-facing text is exactly
`GitLab connection error: GitLab connection error: ` followed by the
cause's message. -/
theorem C10_connection_double_prefix (causeMessage : String) :
    handleError (.connection causeMessage) =
      errorResponse ("GitLab connection error: GitLab connection error: " ++ causeMessage) := by
  simp only [handleError, connectionErrorMessage]
  rw [← stringAppend_assoc]
  have h2 : ("GitLab connection error: " ++ "GitLab connection error: " : String)
      = "GitLab connection error: GitLab connection error: " := by decide
  rw [h2]

/-- C7: for any status in [400, 599] and any message, a `GitLabApiError`
raised by the remote client surfaces — through every operation's
dispatcher — as an error-tagged result whose text is exactly
`GitLab API error {status}: {message}`, containing both pieces. -/
theorem C7_remote_rejection_surfaces (op : OpId) (m : ArgMap) (remote : RemoteBehavior)
    (status : Nat) (msg : String)
    (hv : validateSchema (schemaOf op) m = .ok ())
    (hr : ∀ c, remote c = .error (.api status msg))
    (_h4 : 400 ≤ status) (_h5 : status ≤ 599) :
    (dispatch op m remote).response.isError = true ∧
    (dispatch op m remote).response.text =
      "GitLab API error " ++ toString status ++ ": " ++ msg := by
  have hd : dispatch op m remote = handlerOf op m remote := by
    unfold dispatch
    rw [hv]
  rw [hd, handlerOf_response_error op m remote _ hr]
  exact ⟨rfl, rfl⟩

/-- C7 witness: a 404 rejection on `list_project_access_tokens`. -/
theorem C7_witness :
    (dispatch .list_project_access_tokens [("project_id", .str "7")]
        (fun _ => .error (.api 404 "404 Project Not Found"))).response.isError = true ∧
    (dispatch .list_project_access_tokens [("project_id", .str "7")]
        (fun _ => .error (.api 404 "404 Project Not Found"))).response.text =
      "GitLab API error " ++ toString 404 ++ ": " ++ "404 Project Not Found" :=
  C7_remote_rejection_surfaces .list_project_access_tokens
    [("project_id", .str "7")] _ 404 "404 Project Not Found" rfl (fun _ => rfl)
    (by decide) (by decide)

/-- C5: every request the client builds carries the `PRIVATE-TOKEN` header
with exactly the configured credential, whatever the method; the JSON
content-type header is attached exactly when a body map is passed, and the
four public client methods pass a body exactly for POST and PUT (GET and
DELETE send no body). -/
theorem C5_auth_and_content_type (baseUrl token path : String)
    (params : List (String × String)) (b : Body) (method : Method) (body : Option Body) :
    ((buildRequest baseUrl token method path body params).headers.lookup "PRIVATE-TOKEN"
        = some token) ∧
    ((buildRequest baseUrl token method path body params).headers.lookup "Content-Type"
        = if body.isSome then some "application/json" else none) ∧
    (clientGetRequest baseUrl token path params).body = none ∧
    (clientGetRequest baseUrl token path params).method = .GET ∧
    (clientPostRequest baseUrl token path b).body = some b ∧
    (clientPostRequest baseUrl token path b).method = .POST ∧
    (clientPutRequest baseUrl token path b).body = some b ∧
    (clientPutRequest baseUrl token path b).method = .PUT ∧
    (clientDeleteRequest baseUrl token path).body = none ∧
    (clientDeleteRequest baseUrl token path).method = .DELETE ∧
    (clientGetRequest baseUrl token path params).headers.lookup "Content-Type" = none ∧
    (clientDeleteRequest baseUrl token path).headers.lookup "Content-Type" = none ∧
    (clientPostRequest baseUrl token path b).headers.lookup "Content-Type"
        = some "application/json" ∧
    (clientPutRequest baseUrl token path b).headers.lookup "Content-Type"
        = some "application/json" := by
  refine ⟨?_, ?_, rfl, rfl, rfl, rfl, rfl, rfl, rfl, rfl, ?_, ?_, ?_, ?_⟩ <;>
    cases body <;>
    simp [buildRequest, clientGetRequest, clientPostRequest, clientPutRequest,
      clientDeleteRequest, List.lookup]

instance {ε α : Type} [DecidableEq ε] [DecidableEq α] : DecidableEq (Except ε α) := fun x y =>
  match x, y with
  | .error a, .error b =>
      match decEq a b with
      | isTrue h => isTrue (by rw [h])
      | isFalse h => isFalse fun hc => h (by injection hc)
  | .ok a, .ok b =>
      match decEq a b with
      | isTrue h => isTrue (by rw [h])
      | isFalse h => isFalse fun hc => h (by injection hc)
  | .error _, .ok _ => isFalse fun hc => Except.noConfusion hc
  | .ok _, .error _ => isFalse fun hc => Except.noConfusion hc

/-- C6: on a non-2xx response the client always raises `GitLabApiError`
(never an unhandled parse error), and its message is extracted in this
exact order: the parsed body's `message` field if present, else its
`error` field, else the whole parsed body serialized, else — when the body
cannot be parsed — the raw response text. -/
theorem C6_error_message_extraction (method : Method) (r : HttpResponse) (hok : r.ok = false) :
    requestResult method (.responds r)
        = .error (.api r.status (extractErrorMessage r.jsonBody r.textBody)) ∧
    (∀ body v, r.jsonBody = some body → nullishGet body "message" = some v →
        extractErrorMessage r.jsonBody r.textBody = jsToString v) ∧
    (∀ body v, r.jsonBody = some body → nullishGet body "message" = none →
        nullishGet body "error" = some v →
        extractErrorMessage r.jsonBody r.textBody = jsToString v) ∧
    (∀ body, r.jsonBody = some body → nullishGet body "message" = none →
        nullishGet body "error" = none →
        extractErrorMessage r.jsonBody r.textBody = Json.stringify body) ∧
    (r.jsonBody = none → extractErrorMessage r.jsonBody r.textBody = r.textBody) := by
  refine ⟨?_, ?_, ?_, ?_, ?_⟩
  · simp [requestResult, hok]
  · intro body v hb hm
    simp [extractErrorMessage, hb, hm]
  · intro body v hb hm he
    simp [extractErrorMessage, hb, hm, he]
  · intro body hb hm he
    simp [extractErrorMessage, hb, hm, he]
  · intro hb
    simp [extractErrorMessage, hb]

/-- C6 witness: the scenario from the spec — 404 with body
`\x7b"message":"404 Project Not Found"\x7d`. -/
theorem C6_witness :
    requestResult .GET
        (.responds ⟨false, 404, some (.obj [("message", .str "404 Project Not Found")]), "raw"⟩)
      = .error (.api 404 "404 Project Not Found") :=
  (C6_error_message_extraction .GET
    ⟨false, 404, some (.obj [("message", .str "404 Project Not Found")]), "raw"⟩ rfl).1

/-- C3: omitting a required field of any operation — all other declared
fields checking out — fails validation with an error naming exactly that
field, and the dispatcher issues zero outbound requests. -/
theorem C3_required_field_enforcement (op : OpId) (f : FieldSpec) (m : ArgMap)
    (remote : RemoteBehavior) (hf : f ∈ schemaOf op) (hreq : f.required = true)
    (hmiss : argGet m f.name = none)
    (hrest : ∀ g ∈ schemaOf op, g ≠ f → checkField m g = .ok ()) :
    ∃ e : ValidationError, validateSchema (schemaOf op) m = .error e ∧
      e.paramName = f.name ∧
      dispatch op m remote = { requests := [], response := invalidArgumentsResponse e } ∧
      (dispatch op m remote).requests = [] := by
  have herr := checkField_missing_required (m := m) hreq hmiss
  have hv := validateSchema_first_error hf hrest herr
  refine ⟨_, hv, rfl, ?_, ?_⟩ <;> simp [dispatch, hv]

/-- C3 witness: `update_ci_variable` without `value` (spec scenario). -/
theorem C3_witness :
    ∃ e : ValidationError,
      validateSchema (schemaOf .update_ci_variable)
          [("project_id", Json.str "1"), ("key", Json.str "K")] = .error e ∧
      e.paramName = "value" ∧
      dispatch .update_ci_variable [("project_id", Json.str "1"), ("key", Json.str "K")] remoteOk
          = { requests := [], response := invalidArgumentsResponse e } ∧
      (dispatch .update_ci_variable [("project_id", Json.str "1"), ("key", Json.str "K")]
          remoteOk).requests = [] :=
  C3_required_field_enforcement .update_ci_variable ⟨"value", .string, true⟩
    [("project_id", Json.str "1"), ("key", Json.str "K")] remoteOk
    (by decide) rfl rfl (by decide)

/-- C4: for any enum-constrained field, a supplied string outside the
declared set fails validation naming that field with zero outbound
requests, while any member of the set passes validation and the call
reaches the remote client (exactly one outbound request). -/
theorem C4_enum_enforcement (op : OpId) (f : FieldSpec) (vs : List String) (m : ArgMap)
    (s : String) (remote : RemoteBehavior)
    (hf : f ∈ schemaOf op) (hty : f.type = .enumOf vs)
    (hval : argGet m f.name = some (.str s))
    (hrest : ∀ g ∈ schemaOf op, g ≠ f → checkField m g = .ok ()) :
    (s ∉ vs → ∃ e : ValidationError, validateSchema (schemaOf op) m = .error e ∧
        e.paramName = f.name ∧
        dispatch op m remote = { requests := [], response := invalidArgumentsResponse e }) ∧
    (s ∈ vs → validateSchema (schemaOf op) m = .ok () ∧
        (dispatch op m remote).requests.length = 1) := by
  have hce := checkField_enum hty hval
  constructor
  · intro hs
    have herr : checkField m f = .error (mustBeOneOf f.name vs) := by
      rw [hce]
      simp [hs]
    have hv := validateSchema_first_error hf hrest herr
    refine ⟨_, hv, ?_, ?_⟩
    · exact rfl
    · simp [dispatch, hv]
  · intro hs
    have hok : checkField m f = .ok () := by
      rw [hce]
      simp [hs]
    have hv := validateSchema_ok_of (m := m) (fun g hg => by
      by_cases hgf : g = f
      · rw [hgf]
        exact hok
      · exact hrest g hg hgf)
    refine ⟨hv, ?_⟩
    have hd : dispatch op m remote = handlerOf op m remote := by
      unfold dispatch
      rw [hv]
    rw [hd]
    exact handlerOf_requests_length op m remote

/-- C4 witness: `create_group` with `visibility: "hidden"` is rejected
naming `visibility`, with zero requests (spec scenario). -/
theorem C4_witness :
    ∃ e : ValidationError,
      validateSchema (schemaOf .create_group)
          [("name", Json.str "g"), ("path", Json.str "g"), ("visibility", Json.str "hidden")]
        = .error e ∧
      e.paramName = "visibility" ∧
      dispatch .create_group
          [("name", Json.str "g"), ("path", Json.str "g"), ("visibility", Json.str "hidden")]
          remoteOk
        = { requests := [], response := invalidArgumentsResponse e } :=
  (C4_enum_enforcement .create_group ⟨"visibility", .enumOf ["private", "internal", "public"], false⟩
    ["private", "internal", "public"]
    [("name", Json.str "g"), ("path", Json.str "g"), ("visibility", Json.str "hidden")]
    "hidden" remoteOk (by decide) rfl rfl (by decide)).1 (by decide)

/-- C2 counterexample: the claim "every string-valued path placeholder is
percent-encoded, including the trigger segment of `test_webhook`" fails on
the code — with `trigger = "a/b"` the path ends `/test/a/b` (two
segments), not the single encoded segment `/test/a%2Fb`. -/
theorem C2_counterexample :
    (test_webhook_call [("project_id", Json.str "1"), ("hook_id", Json.num 1),
        ("trigger", Json.str "a/b")]).path = "/projects/1/hooks/1/test/a/b" ∧
    encodeURIComponent "a/b" = "a%2Fb" ∧
    (test_webhook_call [("project_id", Json.str "1"), ("hook_id", Json.num 1),
        ("trigger", Json.str "a/b")]).path
      ≠ "/projects/1/hooks/1/test/" ++ encodeURIComponent "a/b" := by
  refine ⟨by decide, by decide, by decide⟩

/-- C2 (amended): in every operation each string-valued path placeholder is
percent-encoded individually before insertion — except the `trigger`
segment of `test_webhook`, which is interpolated verbatim.  The encoder
never emits `/`, so an encoded identifier such as `"group/project"` always
survives as the single segment `group%2Fproject`. -/
theorem C2_amended_path_encoding :
    (∀ s : String, '/' ∉ (encodeURIComponent s).data) ∧
    encodeURIComponent "group/project" = "group%2Fproject" ∧
    (∀ m : ArgMap,
      (create_webhook_call m).path
          = "/projects/" ++ encodeURIComponent (getStr m "project_id") ++ "/hooks" ∧
      (list_webhooks_call m).path
          = "/projects/" ++ encodeURIComponent (getStr m "project_id") ++ "/hooks" ∧
      (update_webhook_call m).path
          = "/projects/" ++ encodeURIComponent (getStr m "project_id") ++ "/hooks/"
            ++ numToString (getInt m "hook_id") ∧
      (delete_webhook_call m).path
          = "/projects/" ++ encodeURIComponent (getStr m "project_id") ++ "/hooks/"
            ++ numToString (getInt m "hook_id") ∧
      (test_webhook_call m).path
          = "/projects/" ++ encodeURIComponent (getStr m "project_id") ++ "/hooks/"
            ++ numToString (getInt m "hook_id") ++ "/test/" ++ getStr m "trigger" ∧
      (create_ci_variable_call m).path
          = "/projects/" ++ encodeURIComponent (getStr m "project_id") ++ "/variables" ∧
      (list_ci_variables_call m).path
          = "/projects/" ++ encodeURIComponent (getStr m "project_id") ++ "/variables" ∧
      (update_ci_variable_call m).path
          = "/projects/" ++ encodeURIComponent (getStr m "project_id") ++ "/variables/"
            ++ encodeURIComponent (getStr m "key") ∧
      (delete_ci_variable_call m).path
          = "/projects/" ++ encodeURIComponent (getStr m "project_id") ++ "/variables/"
            ++ encodeURIComponent (getStr m "key") ∧
      (protect_branch_call m).path
          = "/projects/" ++ encodeURIComponent (getStr m "project_id") ++ "/protected_branches" ∧
      (list_protected_branches_call m).path
          = "/projects/" ++ encodeURIComponent (getStr m "project_id") ++ "/protected_branches" ∧
      (unprotect_branch_call m).path
          = "/projects/" ++ encodeURIComponent (getStr m "project_id") ++ "/protected_branches/"
            ++ encodeURIComponent (getStr m "name") ∧
      (update_project_settings_call m).path
          = "/projects/" ++ encodeURIComponent (getStr m "project_id") ∧
      (create_group_call m).path = "/groups" ∧
      (list_groups_call m).path = "/groups" ∧
      (delete_group_call m).path = "/groups/" ++ numToString (getInt m "group_id") ∧
      (create_project_access_token_call m).path
          = "/projects/" ++ encodeURIComponent (getStr m "project_id") ++ "/access_tokens" ∧
      (list_project_access_tokens_call m).path
          = "/projects/" ++ encodeURIComponent (getStr m "project_id") ++ "/access_tokens" ∧
      (revoke_project_access_token_call m).path
          = "/projects/" ++ encodeURIComponent (getStr m "project_id") ++ "/access_tokens/"
            ++ numToString (getInt m "token_id") ∧
      (create_pipeline_trigger_call m).path
          = "/projects/" ++ encodeURIComponent (getStr m "project_id") ++ "/triggers" ∧
      (list_pipeline_triggers_call m).path
          = "/projects/" ++ encodeURIComponent (getStr m "project_id") ++ "/triggers" ∧
      (delete_pipeline_trigger_call m).path
          = "/projects/" ++ encodeURIComponent (getStr m "project_id") ++ "/triggers/"
            ++ numToString (getInt m "trigger_id")) := by
  refine ⟨slash_not_mem_encodeURIComponent, by decide, ?_⟩
  intro m
  exact ⟨rfl, rfl, rfl, rfl, rfl, rfl, rfl, rfl, rfl, rfl, rfl, rfl, rfl, rfl, rfl, rfl,
    rfl, rfl, rfl, rfl, rfl, rfl⟩

/-- C8: on any 2xx response a DELETE returns the unit marker without the
body ever being parsed (the result is `.ok none` for every body shape,
including an unparseable one); every delete-family handler then renders
the fixed `\x7b"status": "success"\x7d` marker; and the spec's concrete
scenario — `delete_pipeline_trigger` on `"team/repo"` / trigger 9 against
a 204 — sends `DELETE /projects/team%2Frepo/triggers/9` and succeeds with
that marker. -/
theorem C8_delete_success_marker :
    (∀ r : HttpResponse, r.ok = true → requestResult .DELETE (.responds r) = .ok none) ∧
    (∀ (m : ArgMap) (r : HttpResponse), r.ok = true →
      (delete_webhook m (remoteOf (.responds r))).response = jsonResponse statusSuccess ∧
      (delete_ci_variable m (remoteOf (.responds r))).response = jsonResponse statusSuccess ∧
      (unprotect_branch m (remoteOf (.responds r))).response = jsonResponse statusSuccess ∧
      (delete_group m (remoteOf (.responds r))).response = jsonResponse statusSuccess ∧
      (revoke_project_access_token m (remoteOf (.responds r))).response
          = jsonResponse statusSuccess ∧
      (delete_pipeline_trigger m (remoteOf (.responds r))).response
          = jsonResponse statusSuccess) ∧
    dispatch .delete_pipeline_trigger
        [("project_id", Json.str "team/repo"), ("trigger_id", Json.num 9)]
        (remoteOf (.responds ⟨true, 204, none, ""⟩))
      = { requests := [⟨.DELETE, "/projects/team%2Frepo/triggers/9", none, []⟩]
        , response := jsonResponse statusSuccess } := by
  have hdel : ∀ r : HttpResponse, r.ok = true →
      requestResult .DELETE (.responds r) = .ok none := by
    intro r h
    simp [requestResult, h]
  refine ⟨hdel, ?_, ?_⟩
  · intro m r h
    refine ⟨?_, ?_, ?_, ?_, ?_, ?_⟩ <;>
      simp [delete_webhook, delete_ci_variable, unprotect_branch, delete_group,
        revoke_project_access_token, delete_pipeline_trigger, delete_webhook_call,
        delete_ci_variable_call, unprotect_branch_call, delete_group_call,
        revoke_project_access_token_call, delete_pipeline_trigger_call, callRemote, remoteOf,
        hdel r h]
  · rfl

/-- C8 witness: the marker conjunct evaluated on a bodyless 204. -/
theorem C8_witness :
    requestResult .DELETE (.responds ⟨true, 204, none, ""⟩) = .ok none :=
  C8_delete_success_marker.1 ⟨true, 204, none, ""⟩ rfl

/-- C9 counterexample: the claim "an Update invocation supplying only
identifiers does not produce a valid request" fails on the code —
`update_webhook` with only `project_id` and `hook_id` passes validation
and issues a PUT with an empty body. -/
theorem C9_counterexample :
    validateSchema (schemaOf .update_webhook)
        [("project_id", Json.str "42"), ("hook_id", Json.num 7)] = .ok () ∧
    (dispatch .update_webhook [("project_id", Json.str "42"), ("hook_id", Json.num 7)]
        remoteOk).requests.length = 1 ∧
    (dispatch .update_webhook [("project_id", Json.str "42"), ("hook_id", Json.num 7)]
        remoteOk).requests.map (fun c => c.path) = ["/projects/42/hooks/7"] ∧
    (dispatch .update_webhook [("project_id", Json.str "42"), ("hook_id", Json.num 7)]
        remoteOk).requests.map (fun c => c.body) = [some []] ∧
    (dispatch .update_webhook [("project_id", Json.str "42"), ("hook_id", Json.num 7)]
        remoteOk).response.isError = false := by
  exact ⟨by decide, by decide, by decide, rfl, rfl⟩

/-- C9 (amended): every Update-family operation requires the parent
identifier and (where one exists) the child identifier — only
`update_ci_variable` additionally requires a changed field (`value`); the
method is PUT and the path is the parent collection path plus the child
identifier (percent-encoded when string-valued); the body holds only the
optional changed fields actually present, never the identifiers consumed
by the path.  An invocation supplying only identifiers is accepted and
produces a PUT with an empty body. -/
theorem C9_amended_update_family :
    (∀ m : ArgMap,
      (update_webhook_call m).method = .PUT ∧
      (update_webhook_call m).body = some (update_webhook_body m) ∧
      "project_id" ∉ keysOf (update_webhook_body m) ∧
      "hook_id" ∉ keysOf (update_webhook_body m) ∧
      (∀ k, k ∈ keysOf (update_webhook_body m) ↔
        (k = "url" ∧ getOptStr m "url" ≠ none) ∨
        (k = "token" ∧ getOptStr m "token" ≠ none) ∨
        (k = "push_events" ∧ getOptBool m "push_events" ≠ none) ∨
        (k = "merge_requests_events" ∧ getOptBool m "merge_requests_events" ≠ none) ∨
        (k = "tag_push_events" ∧ getOptBool m "tag_push_events" ≠ none) ∨
        (k = "issues_events" ∧ getOptBool m "issues_events" ≠ none) ∨
        (k = "pipeline_events" ∧ getOptBool m "pipeline_events" ≠ none) ∨
        (k = "job_events" ∧ getOptBool m "job_events" ≠ none) ∨
        (k = "note_events" ∧ getOptBool m "note_events" ≠ none) ∨
        (k = "releases_events" ∧ getOptBool m "releases_events" ≠ none) ∨
        (k = "enable_ssl_verification" ∧ getOptBool m "enable_ssl_verification" ≠ none))) ∧
    (∀ m : ArgMap,
      (update_ci_variable_call m).method = .PUT ∧
      (update_ci_variable_call m).body = some (update_ci_variable_body m) ∧
      "project_id" ∉ keysOf (update_ci_variable_body m) ∧
      "key" ∉ keysOf (update_ci_variable_body m) ∧
      (∀ k, k ∈ keysOf (update_ci_variable_body m) ↔
        k = "value" ∨
        (k = "protected" ∧ getOptBool m "protected" ≠ none) ∨
        (k = "masked" ∧ getOptBool m "masked" ≠ none) ∨
        (k = "environment_scope" ∧ getOptStr m "environment_scope" ≠ none) ∨
        (k = "variable_type" ∧ getOptStr m "variable_type" ≠ none))) ∧
    (∀ m : ArgMap,
      (update_project_settings_call m).method = .PUT ∧
      (update_project_settings_call m).body = some (update_project_settings_body m) ∧
      "project_id" ∉ keysOf (update_project_settings_body m) ∧
      (∀ k, k ∈ keysOf (update_project_settings_body m) ↔
        (k = "merge_method" ∧ getOptStr m "merge_method" ≠ none) ∨
        (k = "squash_option" ∧ getOptStr m "squash_option" ≠ none) ∨
        (k = "only_allow_merge_if_pipeline_succeeds"
            ∧ getOptBool m "only_allow_merge_if_pipeline_succeeds" ≠ none) ∨
        (k = "remove_source_branch_after_merge"
            ∧ getOptBool m "remove_source_branch_after_merge" ≠ none) ∨
        (k = "auto_devops_enabled" ∧ getOptBool m "auto_devops_enabled" ≠ none) ∨
        (k = "shared_runners_enabled" ∧ getOptBool m "shared_runners_enabled" ≠ none) ∨
        (k = "container_registry_enabled"
            ∧ getOptBool m "container_registry_enabled" ≠ none))) ∧
    (schemaOf .update_webhook).filter (fun f => f.required) = [reqS "project_id", reqN "hook_id"] ∧
    (schemaOf .update_ci_variable).filter (fun f => f.required)
        = [reqS "project_id", reqS "key", reqS "value"] ∧
    (schemaOf .update_project_settings).filter (fun f => f.required) = [reqS "project_id"] ∧
    update_webhook_body [("project_id", Json.str "42"), ("hook_id", Json.num 7)] = [] ∧
    validateSchema (schemaOf .update_webhook)
        [("project_id", Json.str "42"), ("hook_id", Json.num 7)] = .ok () := by
  refine ⟨?_, ?_, ?_, by decide, by decide, by decide, rfl, by decide⟩
  · intro m
    have hk : ∀ k, k ∈ keysOf (update_webhook_body m) ↔
        (k = "url" ∧ getOptStr m "url" ≠ none) ∨
        (k = "token" ∧ getOptStr m "token" ≠ none) ∨
        (k = "push_events" ∧ getOptBool m "push_events" ≠ none) ∨
        (k = "merge_requests_events" ∧ getOptBool m "merge_requests_events" ≠ none) ∨
        (k = "tag_push_events" ∧ getOptBool m "tag_push_events" ≠ none) ∨
        (k = "issues_events" ∧ getOptBool m "issues_events" ≠ none) ∨
        (k = "pipeline_events" ∧ getOptBool m "pipeline_events" ≠ none) ∨
        (k = "job_events" ∧ getOptBool m "job_events" ≠ none) ∨
        (k = "note_events" ∧ getOptBool m "note_events" ≠ none) ∨
        (k = "releases_events" ∧ getOptBool m "releases_events" ≠ none) ∨
        (k = "enable_ssl_verification" ∧ getOptBool m "enable_ssl_verification" ≠ none) := by
      intro k
      simp only [update_webhook_body, mem_keysOf_optSet, map_ne_none, keysOf_nil,
        List.not_mem_nil, false_or, or_assoc]
    refine ⟨rfl, rfl, ?_, ?_, hk⟩
    · rw [hk "project_id"]
      simp
    · rw [hk "hook_id"]
      simp
  · intro m
    have hk : ∀ k, k ∈ keysOf (update_ci_variable_body m) ↔
        k = "value" ∨
        (k = "protected" ∧ getOptBool m "protected" ≠ none) ∨
        (k = "masked" ∧ getOptBool m "masked" ≠ none) ∨
        (k = "environment_scope" ∧ getOptStr m "environment_scope" ≠ none) ∨
        (k = "variable_type" ∧ getOptStr m "variable_type" ≠ none) := by
      intro k
      simp only [update_ci_variable_body, mem_keysOf_optSet, map_ne_none, keysOf_cons,
        keysOf_nil, List.mem_cons, List.not_mem_nil, or_false, or_assoc]
    refine ⟨rfl, rfl, ?_, ?_, hk⟩
    · rw [hk "project_id"]
      simp
    · rw [hk "key"]
      simp
  · intro m
    have hk : ∀ k, k ∈ keysOf (update_project_settings_body m) ↔
        (k = "merge_method" ∧ getOptStr m "merge_method" ≠ none) ∨
        (k = "squash_option" ∧ getOptStr m "squash_option" ≠ none) ∨
        (k = "only_allow_merge_if_pipeline_succeeds"
            ∧ getOptBool m "only_allow_merge_if_pipeline_succeeds" ≠ none) ∨
        (k = "remove_source_branch_after_merge"
            ∧ getOptBool m "remove_source_branch_after_merge" ≠ none) ∨
        (k = "auto_devops_enabled" ∧ getOptBool m "auto_devops_enabled" ≠ none) ∨
        (k = "shared_runners_enabled" ∧ getOptBool m "shared_runners_enabled" ≠ none) ∨
        (k = "container_registry_enabled"
            ∧ getOptBool m "container_registry_enabled" ≠ none) := by
      intro k
      simp only [update_project_settings_body, mem_keysOf_optSet, map_ne_none, keysOf_nil,
        List.not_mem_nil, false_or, or_assoc]
    refine ⟨rfl, rfl, ?_, hk⟩
    rw [hk "project_id"]
    simp

/-- C1: for every operation that sends a JSON body, the body holds exactly
the operation's required fields plus those optional fields the caller
supplied a non-undefined value for; omitted optional fields are entirely
absent.  In particular `create_webhook` with exactly
`\x7bproject_id: "42", url: "https://x.com"\x7d` POSTs to
`/projects/42/hooks` with body exactly `\x7burl: "https://x.com"\x7d`. -/
theorem C1_body_exactness :
    (∀ m : ArgMap, validateSchema (schemaOf .create_webhook) m = .ok () → ∀ k,
      k ∈ keysOf (create_webhook_body m) ↔
        k = "url" ∨
        (k = "token" ∧ supplied m "token") ∨
        (k = "push_events" ∧ supplied m "push_events") ∨
        (k = "merge_requests_events" ∧ supplied m "merge_requests_events") ∨
        (k = "tag_push_events" ∧ supplied m "tag_push_events") ∨
        (k = "issues_events" ∧ supplied m "issues_events") ∨
        (k = "pipeline_events" ∧ supplied m "pipeline_events") ∨
        (k = "job_events" ∧ supplied m "job_events") ∨
        (k = "note_events" ∧ supplied m "note_events") ∨
        (k = "releases_events" ∧ supplied m "releases_events") ∨
        (k = "enable_ssl_verification" ∧ supplied m "enable_ssl_verification")) ∧
    (∀ m : ArgMap, validateSchema (schemaOf .update_webhook) m = .ok () → ∀ k,
      k ∈ keysOf (update_webhook_body m) ↔
        (k = "url" ∧ supplied m "url") ∨
        (k = "token" ∧ supplied m "token") ∨
        (k = "push_events" ∧ supplied m "push_events") ∨
        (k = "merge_requests_events" ∧ supplied m "merge_requests_events") ∨
        (k = "tag_push_events" ∧ supplied m "tag_push_events") ∨
        (k = "issues_events" ∧ supplied m "issues_events") ∨
        (k = "pipeline_events" ∧ supplied m "pipeline_events") ∨
        (k = "job_events" ∧ supplied m "job_events") ∨
        (k = "note_events" ∧ supplied m "note_events") ∨
        (k = "releases_events" ∧ supplied m "releases_events") ∨
        (k = "enable_ssl_verification" ∧ supplied m "enable_ssl_verification")) ∧
    (∀ m : ArgMap, validateSchema (schemaOf .create_ci_variable) m = .ok () → ∀ k,
      k ∈ keysOf (create_ci_variable_body m) ↔
        k = "key" ∨ k = "value" ∨
        (k = "protected" ∧ supplied m "protected") ∨
        (k = "masked" ∧ supplied m "masked") ∨
        (k = "environment_scope" ∧ supplied m "environment_scope") ∨
        (k = "variable_type" ∧ supplied m "variable_type")) ∧
    (∀ m : ArgMap, validateSchema (schemaOf .update_ci_variable) m = .ok () → ∀ k,
      k ∈ keysOf (update_ci_variable_body m) ↔
        k = "value" ∨
        (k = "protected" ∧ supplied m "protected") ∨
        (k = "masked" ∧ supplied m "masked") ∨
        (k = "environment_scope" ∧ supplied m "environment_scope") ∨
        (k = "variable_type" ∧ supplied m "variable_type")) ∧
    (∀ m : ArgMap, validateSchema (schemaOf .protect_branch) m = .ok () → ∀ k,
      k ∈ keysOf (protect_branch_body m) ↔
        k = "name" ∨
        (k = "push_access_level" ∧ supplied m "push_access_level") ∨
        (k = "merge_access_level" ∧ supplied m "merge_access_level") ∨
        (k = "allow_force_push" ∧ supplied m "allow_force_push")) ∧
    (∀ m : ArgMap, validateSchema (schemaOf .update_project_settings) m = .ok () → ∀ k,
      k ∈ keysOf (update_project_settings_body m) ↔
        (k = "merge_method" ∧ supplied m "merge_method") ∨
        (k = "squash_option" ∧ supplied m "squash_option") ∨
        (k = "only_allow_merge_if_pipeline_succeeds"
            ∧ supplied m "only_allow_merge_if_pipeline_succeeds") ∨
        (k = "remove_source_branch_after_merge"
            ∧ supplied m "remove_source_branch_after_merge") ∨
        (k = "auto_devops_enabled" ∧ supplied m "auto_devops_enabled") ∨
        (k = "shared_runners_enabled" ∧ supplied m "shared_runners_enabled") ∨
        (k = "container_registry_enabled" ∧ supplied m "container_registry_enabled")) ∧
    (∀ m : ArgMap, validateSchema (schemaOf .create_group) m = .ok () → ∀ k,
      k ∈ keysOf (create_group_body m) ↔
        k = "name" ∨ k = "path" ∨
        (k = "visibility" ∧ supplied m "visibility") ∨
        (k = "parent_id" ∧ supplied m "parent_id") ∨
        (k = "description" ∧ supplied m "description")) ∧
    (∀ m : ArgMap, keysOf (create_project_access_token_body m)
        = ["name", "scopes", "access_level", "expires_at"]) ∧
    (∀ m : ArgMap, (create_pipeline_trigger_call m).body
        = some [("description", .str (getStr m "description"))]) ∧
    (∀ m : ArgMap, (test_webhook_call m).body = some []) ∧
    dispatch .create_webhook [("project_id", Json.str "42"), ("url", Json.str "https://x.com")]
        remoteOk
      = { requests := [⟨.POST, "/projects/42/hooks", some [("url", Json.str "https://x.com")], []⟩]
        , response := jsonResponse (Json.obj []) } := by
  refine ⟨?_, ?_, ?_, ?_, ?_, ?_, ?_, fun m => rfl, fun m => rfl, fun m => rfl, rfl⟩
  · intro m hv k
    have h1 : getOptStr m "token" ≠ none ↔ supplied m "token" :=
      optStr_supplied (validateSchema_ok_field hv (by decide))
    have h2 : getOptBool m "push_events" ≠ none ↔ supplied m "push_events" :=
      optBool_supplied (validateSchema_ok_field hv (by decide))
    have h3 : getOptBool m "merge_requests_events" ≠ none
        ↔ supplied m "merge_requests_events" :=
      optBool_supplied (validateSchema_ok_field hv (by decide))
    have h4 : getOptBool m "tag_push_events" ≠ none ↔ supplied m "tag_push_events" :=
      optBool_supplied (validateSchema_ok_field hv (by decide))
    have h5 : getOptBool m "issues_events" ≠ none ↔ supplied m "issues_events" :=
      optBool_supplied (validateSchema_ok_field hv (by decide))
    have h6 : getOptBool m "pipeline_events" ≠ none ↔ supplied m "pipeline_events" :=
      optBool_supplied (validateSchema_ok_field hv (by decide))
    have h7 : getOptBool m "job_events" ≠ none ↔ supplied m "job_events" :=
      optBool_supplied (validateSchema_ok_field hv (by decide))
    have h8 : getOptBool m "note_events" ≠ none ↔ supplied m "note_events" :=
      optBool_supplied (validateSchema_ok_field hv (by decide))
    have h9 : getOptBool m "releases_events" ≠ none ↔ supplied m "releases_events" :=
      optBool_supplied (validateSchema_ok_field hv (by decide))
    have h10 : getOptBool m "enable_ssl_verification" ≠ none
        ↔ supplied m "enable_ssl_verification" :=
      optBool_supplied (validateSchema_ok_field hv (by decide))
    simp only [create_webhook_body, mem_keysOf_optSet, map_ne_none, keysOf_cons, keysOf_nil,
      List.mem_cons, List.not_mem_nil, or_false, or_assoc]
    rw [h1, h2, h3, h4, h5, h6, h7, h8, h9, h10]
  · intro m hv k
    have h0 : getOptStr m "url" ≠ none ↔ supplied m "url" :=
      optStr_supplied (validateSchema_ok_field hv (by decide))
    have h1 : getOptStr m "token" ≠ none ↔ supplied m "token" :=
      optStr_supplied (validateSchema_ok_field hv (by decide))
    have h2 : getOptBool m "push_events" ≠ none ↔ supplied m "push_events" :=
      optBool_supplied (validateSchema_ok_field hv (by decide))
    have h3 : getOptBool m "merge_requests_events" ≠ none
        ↔ supplied m "merge_requests_events" :=
      optBool_supplied (validateSchema_ok_field hv (by decide))
    have h4 : getOptBool m "tag_push_events" ≠ none ↔ supplied m "tag_push_events" :=
      optBool_supplied (validateSchema_ok_field hv (by decide))
    have h5 : getOptBool m "issues_events" ≠ none ↔ supplied m "issues_events" :=
      optBool_supplied (validateSchema_ok_field hv (by decide))
    have h6 : getOptBool m "pipeline_events" ≠ none ↔ supplied m "pipeline_events" :=
      optBool_supplied (validateSchema_ok_field hv (by decide))
    have h7 : getOptBool m "job_events" ≠ none ↔ supplied m "job_events" :=
      optBool_supplied (validateSchema_ok_field hv (by decide))
    have h8 : getOptBool m "note_events" ≠ none ↔ supplied m "note_events" :=
      optBool_supplied (validateSchema_ok_field hv (by decide))
    have h9 : getOptBool m "releases_events" ≠ none ↔ supplied m "releases_events" :=
      optBool_supplied (validateSchema_ok_field hv (by decide))
    have h10 : getOptBool m "enable_ssl_verification" ≠ none
        ↔ supplied m "enable_ssl_verification" :=
      optBool_supplied (validateSchema_ok_field hv (by decide))
    simp only [update_webhook_body, mem_keysOf_optSet, map_ne_none, keysOf_nil,
      List.not_mem_nil, false_or, or_assoc]
    rw [h0, h1, h2, h3, h4, h5, h6, h7, h8, h9, h10]
  · intro m hv k
    have h1 : getOptBool m "protected" ≠ none ↔ supplied m "protected" :=
      optBool_supplied (validateSchema_ok_field hv (by decide))
    have h2 : getOptBool m "masked" ≠ none ↔ supplied m "masked" :=
      optBool_supplied (validateSchema_ok_field hv (by decide))
    have h3 : getOptStr m "environment_scope" ≠ none ↔ supplied m "environment_scope" :=
      optStr_supplied (validateSchema_ok_field hv (by decide))
    have h4 : getOptStr m "variable_type" ≠ none ↔ supplied m "variable_type" :=
      @optEnum_supplied m "variable_type" ["env_var", "file"]
        (validateSchema_ok_field hv (by decide))
    simp only [create_ci_variable_body, mem_keysOf_optSet, map_ne_none, keysOf_cons, keysOf_nil,
      List.mem_cons, List.not_mem_nil, or_false, or_assoc]
    rw [h1, h2, h3, h4]
  · intro m hv k
    have h1 : getOptBool m "protected" ≠ none ↔ supplied m "protected" :=
      optBool_supplied (validateSchema_ok_field hv (by decide))
    have h2 : getOptBool m "masked" ≠ none ↔ supplied m "masked" :=
      optBool_supplied (validateSchema_ok_field hv (by decide))
    have h3 : getOptStr m "environment_scope" ≠ none ↔ supplied m "environment_scope" :=
      optStr_supplied (validateSchema_ok_field hv (by decide))
    have h4 : getOptStr m "variable_type" ≠ none ↔ supplied m "variable_type" :=
      @optEnum_supplied m "variable_type" ["env_var", "file"]
        (validateSchema_ok_field hv (by decide))
    simp only [update_ci_variable_body, mem_keysOf_optSet, map_ne_none, keysOf_cons, keysOf_nil,
      List.mem_cons, List.not_mem_nil, or_false, or_assoc]
    rw [h1, h2, h3, h4]
  · intro m hv k
    have h1 : getOptInt m "push_access_level" ≠ none ↔ supplied m "push_access_level" :=
      optInt_supplied (validateSchema_ok_field hv (by decide))
    have h2 : getOptInt m "merge_access_level" ≠ none ↔ supplied m "merge_access_level" :=
      optInt_supplied (validateSchema_ok_field hv (by decide))
    have h3 : getOptBool m "allow_force_push" ≠ none ↔ supplied m "allow_force_push" :=
      optBool_supplied (validateSchema_ok_field hv (by decide))
    simp only [protect_branch_body, mem_keysOf_optSet, map_ne_none, keysOf_cons, keysOf_nil,
      List.mem_cons, List.not_mem_nil, or_false, or_assoc]
    rw [h1, h2, h3]
  · intro m hv k
    have h1 : getOptStr m "merge_method" ≠ none ↔ supplied m "merge_method" :=
      @optEnum_supplied m "merge_method" ["merge", "rebase_merge", "ff"]
        (validateSchema_ok_field hv (by decide))
    have h2 : getOptStr m "squash_option" ≠ none ↔ supplied m "squash_option" :=
      @optEnum_supplied m "squash_option" ["default_off", "default_on", "always", "never"]
        (validateSchema_ok_field hv (by decide))
    have h3 : getOptBool m "only_allow_merge_if_pipeline_succeeds" ≠ none
        ↔ supplied m "only_allow_merge_if_pipeline_succeeds" :=
      optBool_supplied (validateSchema_ok_field hv (by decide))
    have h4 : getOptBool m "remove_source_branch_after_merge" ≠ none
        ↔ supplied m "remove_source_branch_after_merge" :=
      optBool_supplied (validateSchema_ok_field hv (by decide))
    have h5 : getOptBool m "auto_devops_enabled" ≠ none ↔ supplied m "auto_devops_enabled" :=
      optBool_supplied (validateSchema_ok_field hv (by decide))
    have h6 : getOptBool m "shared_runners_enabled" ≠ none
        ↔ supplied m "shared_runners_enabled" :=
      optBool_supplied (validateSchema_ok_field hv (by decide))
    have h7 : getOptBool m "container_registry_enabled" ≠ none
        ↔ supplied m "container_registry_enabled" :=
      optBool_supplied (validateSchema_ok_field hv (by decide))
    simp only [update_project_settings_body, mem_keysOf_optSet, map_ne_none, keysOf_nil,
      List.not_mem_nil, false_or, or_assoc]
    rw [h1, h2, h3, h4, h5, h6, h7]
  · intro m hv k
    have h1 : getOptStr m "visibility" ≠ none ↔ supplied m "visibility" :=
      @optEnum_supplied m "visibility" ["private", "internal", "public"]
        (validateSchema_ok_field hv (by decide))
    have h2 : getOptInt m "parent_id" ≠ none ↔ supplied m "parent_id" :=
      optInt_supplied (validateSchema_ok_field hv (by decide))
    have h3 : getOptStr m "description" ≠ none ↔ supplied m "description" :=
      optStr_supplied (validateSchema_ok_field hv (by decide))
    simp only [create_group_body, mem_keysOf_optSet, map_ne_none, keysOf_cons, keysOf_nil,
      List.mem_cons, List.not_mem_nil, or_false, or_assoc]
    rw [h1, h2, h3]

/-- C1 witness: `create_group` with `visibility` supplied and
`description` omitted — the supplied enum field is in the body, the
omitted optional is absent, and the required fields are present. -/
theorem C1_witness :
    ("visibility" ∈ keysOf (create_group_body
        [("name", Json.str "g"), ("path", Json.str "g"), ("visibility", Json.str "public")])
      ↔ ("visibility" : String) = "name" ∨ ("visibility" : String) = "path" ∨
        (("visibility" : String) = "visibility" ∧ supplied
            [("name", Json.str "g"), ("path", Json.str "g"), ("visibility", Json.str "public")]
            "visibility") ∨
        (("visibility" : String) = "parent_id" ∧ supplied
            [("name", Json.str "g"), ("path", Json.str "g"), ("visibility", Json.str "public")]
            "parent_id") ∨
        (("visibility" : String) = "description" ∧ supplied
            [("name", Json.str "g"), ("path", Json.str "g"), ("visibility", Json.str "public")]
            "description")) :=
  C1_body_exactness.2.2.2.2.2.2.1
    [("name", Json.str "g"), ("path", Json.str "g"), ("visibility", Json.str "public")]
    (by decide) "visibility"

/-- C2 witness: the encoder output for `"group/project"` holds no path
separator. -/
theorem C2_witness : '/' ∉ (encodeURIComponent "group/project").data :=
  C2_amended_path_encoding.1 "group/project"

/-- C9 witness: the identifiers consumed by `update_webhook`'s path never
appear in its body. -/
theorem C9_witness :
    "project_id" ∉ keysOf (update_webhook_body
      [("project_id", Json.str "42"), ("hook_id", Json.num 7)]) :=
  (C9_amended_update_family.1 [("project_id", Json.str "42"), ("hook_id", Json.num 7)]).2.2.1

/-- Sanity check: compact serialization of the delete-success marker. -/
theorem stringify_statusSuccess :
    Json.stringify statusSuccess = "\x7b\"status\":\"success\"\x7d" := rfl

/-- Sanity check: a namespaced project path is encoded as one segment. -/
theorem encode_team_repo : encodeURIComponent "team/repo" = "team%2Frepo" := by decide

end GitLabOps
